import Mathlib

/-!
# Room ventilation controller (KWLctl): display, configuration and scheduling core

A shallow embedding of the parts of `KWLConfig.h` and `TFT.cpp` that the
properties below are about, together with models of the scheduler, the timing
statistics and the crash ring buffer whose implementation files are not part
of the sources at hand (those definitions say so in their doc comment).

Conventions: `unsigned long` / `uint32_t` values are natural numbers below
`2^32`, arithmetic on them is written with an explicit `% 2^32`.
-/

set_option autoImplicit false

/-! ## Definitions -/

/-- Number of values of a 32-bit unsigned integer (`unsigned long` on the AVR target). -/
def U32 : Nat := 4294967296

/-- Unsigned 32-bit subtraction `a - b` as the C++ code computes it. -/
def usub32 (a b : Nat) : Nat := (a % U32 + U32 - b % U32) % U32

/-! ### `KWLConfig.h`: crash data -/

/-- Constant `KWLDefaultConfig::MaxCrashReportCount`. -/
def MaxCrashReportCount : Nat := 4

/-- Width in bits of the bit-field `CrashData::crash_addr`. -/
def CRASH_ADDR_BITS : Nat := 18

/-- Width in bits of the bit-field `CrashData::crash_sp`. -/
def CRASH_SP_BITS : Nat := 14

/-- Type `struct CrashData`, the structure used to store crash data in EEPROM. -/
structure CrashData where
  /-- Value of `millis()` at the time of the crash. -/
  millis : Nat
  /-- Real time (via NTP) if available at the time of the crash. -/
  real_time : Nat
  /-- Crash address (instruction pointer), bit-field of 18 bits. -/
  crash_addr : Nat
  /-- SP at the time of crash, bit-field of 14 bits. -/
  crash_sp : Nat
deriving DecidableEq, Repr, Inhabited

/-- Assignment of the four members of a `CrashData`: `millis` and `real_time` are
`uint32_t`, `crash_addr` and `crash_sp` are unsigned bit-fields of a `uint32_t`, so
the assigned value is reduced modulo two to the power of the field width. -/
def CrashData.assign (millis real_time pc sp : Nat) : CrashData :=
  { millis := millis % U32
    real_time := real_time % U32
    crash_addr := pc % 2 ^ CRASH_ADDR_BITS
    crash_sp := sp % 2 ^ CRASH_SP_BITS }

/-- The 32-bit allocation unit shared by the two bit-fields of `CrashData`
(`crash_addr` in the low 18 bits, `crash_sp` in the 14 bits above, as avr-gcc lays
out consecutive bit-fields of one `uint32_t`). -/
def CrashData.word (c : CrashData) : Nat :=
  c.crash_addr % 2 ^ CRASH_ADDR_BITS + 2 ^ CRASH_ADDR_BITS * (c.crash_sp % 2 ^ CRASH_SP_BITS)

/-- Read `crash_addr` back from the shared allocation unit. -/
def CrashData.wordAddr (w : Nat) : Nat := w % 2 ^ CRASH_ADDR_BITS

/-- Read `crash_sp` back from the shared allocation unit. -/
def CrashData.wordSp (w : Nat) : Nat := w / 2 ^ CRASH_ADDR_BITS % 2 ^ CRASH_SP_BITS

/-- Arguments of one `storeCrash` call, with the `millis()` value read by it. -/
structure CrashReport where
  /-- Value of `millis()` when the report is stored. -/
  now : Nat
  /-- Parameter `uint32_t pc`. -/
  pc : Nat
  /-- Parameter `unsigned sp`. -/
  sp : Nat
  /-- Parameter `uint32_t real_time`. -/
  real_time : Nat
deriving DecidableEq, Repr

/-- The record that a report leaves in its slot. -/
def CrashReport.record (r : CrashReport) : CrashData :=
  CrashData.assign r.now r.real_time r.pc r.sp

/-- Modelled from the spec: the body of `KWLPersistentConfig::storeCrash`,
`resetCrashes` and `hasCrash` (file `KWLConfig.cpp`) is missing; only the
declarations and the array `crashes_[MaxCrashReportCount]` are in `KWLConfig.h`.
The spec describes "a fixed-size ring buffer (capacity N, e.g., 4) inside
persistent storage; oldest record is overwritten when full". The ring is the slot
array `crashes_`, the number `count` of slots in use and the index `next` of the
slot that receives the next record; how the code itself finds the oldest slot is not
in the sources at hand. -/
structure CrashRing where
  /-- The slots `crashes_[0 .. MaxCrashReportCount - 1]`. -/
  crashes_ : List CrashData
  /-- Number of slots holding a record. -/
  count : Nat
  /-- Index of the slot written by the next `storeCrash`. -/
  next : Nat
deriving DecidableEq, Repr

/-- Modelled from the spec: `resetCrashes`, "a distinct reset all crash history
command clears the ring buffer on demand"; also the state of a new buffer. -/
def CrashRing.resetCrashes : CrashRing :=
  { crashes_ := List.replicate MaxCrashReportCount default, count := 0, next := 0 }

/-- Modelled from the spec: `storeCrash`, "insertion overwrites the oldest slot once
the buffer is full - an always-available, fixed-capacity history, never failing for
lack of space". While slots are free the record goes to the next free slot; once all
are in use `next` is the oldest slot. -/
def CrashRing.storeCrash (b : CrashRing) (r : CrashReport) : CrashRing :=
  { crashes_ := b.crashes_.set b.next r.record
    count := min (b.count + 1) MaxCrashReportCount
    next := (b.next + 1) % MaxCrashReportCount }

/-- Modelled from the spec: `hasCrash`, whether any crash report is present. -/
def CrashRing.hasCrash (b : CrashRing) : Bool := decide (0 < b.count)

/-- The records held by the ring, oldest first (the oldest of `count` records sits
`count` slots before `next`). -/
def CrashRing.records (b : CrashRing) : List CrashData :=
  (List.range b.count).map fun i =>
    b.crashes_.getD ((b.next + MaxCrashReportCount - b.count + i) % MaxCrashReportCount) default

/-- A sequence of `storeCrash` calls, first report first. -/
def CrashRing.storeAll (b : CrashRing) (rs : List CrashReport) : CrashRing :=
  rs.foldl CrashRing.storeCrash b

/-- Invariant of a ring filled from empty by the reports `rs`. -/
def CrashRing.Filled (b : CrashRing) (rs : List CrashReport) : Prop :=
  b.crashes_.length = MaxCrashReportCount ∧
  b.next = rs.length % MaxCrashReportCount ∧
  b.count = min rs.length MaxCrashReportCount ∧
  ∀ j, j < rs.length → rs.length ≤ j + MaxCrashReportCount →
    b.crashes_[j % MaxCrashReportCount]? = (rs.map CrashReport.record)[j]?

/-! ### `KWLConfig.h`: network defaults -/

/-- Type `class IPAddressLiteral`: helper to construct an IP address as a literal, the
four elements of `byte ip[4]`. -/
structure IPAddressLiteral where
  /-- Element `ip[0]`. -/
  ip0 : Nat
  /-- Element `ip[1]`. -/
  ip1 : Nat
  /-- Element `ip[2]`. -/
  ip2 : Nat
  /-- Element `ip[3]`. -/
  ip3 : Nat
deriving DecidableEq, Repr

/-- Constructor `IPAddressLiteral(byte a, byte b, byte c, byte d)`. -/
def IPAddressLiteral.lit (a b c d : Nat) : IPAddressLiteral :=
  { ip0 := a % 256, ip1 := b % 256, ip2 := c % 256, ip3 := d % 256 }

/-- Operator `IPAddressLiteral::operator&`. -/
def IPAddressLiteral.and (x other : IPAddressLiteral) : IPAddressLiteral :=
  IPAddressLiteral.lit (x.ip0 &&& other.ip0) (x.ip1 &&& other.ip1) (x.ip2 &&& other.ip2)
    (x.ip3 &&& other.ip3)

/-- Operator `IPAddressLiteral::operator|`. -/
def IPAddressLiteral.or (x other : IPAddressLiteral) : IPAddressLiteral :=
  IPAddressLiteral.lit (x.ip0 ||| other.ip0) (x.ip1 ||| other.ip1) (x.ip2 ||| other.ip2)
    (x.ip3 ||| other.ip3)

/-- Default `KWLDefaultConfig::NetworkIPAddress`. -/
def KWLDefaultConfig.NetworkIPAddress : IPAddressLiteral := IPAddressLiteral.lit 192 168 20 201

/-- Default `KWLDefaultConfig::NetworkSubnetMask`. -/
def KWLDefaultConfig.NetworkSubnetMask : IPAddressLiteral := IPAddressLiteral.lit 255 255 255 0

/-- Default `KWLDefaultConfig::NetworkGateway`, computed from the final configuration's
`NetworkIPAddress` and `NetworkSubnetMask`:
`(FinalConfig::NetworkIPAddress & FinalConfig::NetworkSubnetMask) | IPAddressLiteral(0, 0, 0, 1)`. -/
def KWLDefaultConfig.NetworkGateway (NetworkIPAddress NetworkSubnetMask : IPAddressLiteral) :
    IPAddressLiteral :=
  (NetworkIPAddress.and NetworkSubnetMask).or (IPAddressLiteral.lit 0 0 0 1)

/-- The network address `IP AND mask` with `1` put in place of its last element. -/
def IPAddressLiteral.networkWithLastOne (ip mask : IPAddressLiteral) : IPAddressLiteral :=
  { ip.and mask with ip3 := 1 }

/-! ### Scheduler (`TimeScheduler.h`, not among the sources) -/

/-- Modelled from the spec: `Scheduler::TaskTimingStats` (file `TimeScheduler.h` is
missing). "A named accumulator of execution-time samples (count, last, minimum,
maximum, running sum) with a reset operation." The name is left out, it never
changes. -/
structure TaskTimingStats where
  /-- Sample count. -/
  count : Nat
  /-- Last duration. -/
  last : Nat
  /-- Minimum duration. -/
  min : Nat
  /-- Maximum duration. -/
  max : Nat
  /-- Cumulative duration. -/
  sum : Nat
deriving DecidableEq, Repr

/-- Modelled from the spec: `reset()`, "zero all numeric fields, keep identity/name";
also the state after construction. -/
def TaskTimingStats.reset (_s : TaskTimingStats) : TaskTimingStats :=
  { count := 0, last := 0, min := 0, max := 0, sum := 0 }

/-- Modelled from the spec: `record(durationMicros)`, "increments count, updates
last/min/max, adds to cumulative sum"; the first record after a reset "establishes
fresh min/max equal to that one sample". -/
def TaskTimingStats.record (s : TaskTimingStats) (d : Nat) : TaskTimingStats :=
  { count := s.count + 1
    last := d
    min := if s.count = 0 then d else Nat.min s.min d
    max := if s.count = 0 then d else Nat.max s.max d
    sum := s.sum + d }

/-- Modelled from the spec: `average()`, "cumulative sum / count (0 if count is 0)". -/
def TaskTimingStats.average (s : TaskTimingStats) : Nat :=
  if s.count = 0 then 0 else s.sum / s.count

/-- A sequence of `record` calls on one statistics object, whichever of the tasks
sharing it made them. -/
def TaskTimingStats.recordAll (s : TaskTimingStats) (ds : List Nat) : TaskTimingStats :=
  ds.foldl TaskTimingStats.record s

/-- Modelled from the spec: `Scheduler::Task` / `TimedTask` (file `TimeScheduler.h` is
missing): "{ enabled: bool, next-deadline: Time, period: Option<Duration> (None =
one-shot) }". Times are the values of the spec's clock; the link to the next task is
left out, and of the bound operation only the calls on its own task are represented
(`Scheduler.SelfCall`). -/
structure TimedTask where
  /-- Enabled flag. -/
  enabled : Bool
  /-- Next deadline. -/
  next_deadline : Nat
  /-- Period of a repeated task, `none` for a one-shot task. -/
  period : Option Nat
deriving DecidableEq, Repr

/-- Modelled from the spec: `runOnce(delay)`, "sets next-deadline = now + delay,
period = None, enabled = true". -/
def TimedTask.runOnce (_t : TimedTask) (now delay : Nat) : TimedTask :=
  { enabled := true, next_deadline := now + delay, period := none }

/-- A task is already running as a repeated task: enabled with a period. -/
def TimedTask.isRunning (t : TimedTask) : Bool := t.enabled && t.period.isSome

/-- Modelled from the spec: `runRepeated(period)`, "sets next-deadline = now + period
(first firing) or advances by period from the last deadline if already running,
period = Some(period), enabled = true". -/
def TimedTask.runRepeated (t : TimedTask) (now period : Nat) : TimedTask :=
  { enabled := true
    next_deadline := if t.isRunning then t.next_deadline + period else now + period
    period := some period }

/-- Modelled from the spec: `cancel()`, "sets enabled = false; does not remove
registration". -/
def TimedTask.cancel (t : TimedTask) : TimedTask := { t with enabled := false }

/-- Modelled from the spec: the bound of a comparison of times, "always compare times via
unsigned subtraction (`(now - deadline) <= some_bound`), never via ordered comparison".
The spec leaves the bound open; half of the range of the 32-bit counter is taken. -/
def Scheduler.TIME_BOUND : Nat := 2147483647

/-- Modelled from the spec: the test of `runIteration`, "for each registered, enabled
task in registry order, if now >= task.next-deadline, execute it", on the clock that
"wraps after its integer range": the deadline is reached when the unsigned difference
`now - deadline` modulo 2^32 is within the bound. Times are counter values; only their
differences modulo 2^32 are compared, so a value and its wrapped value behave alike. -/
def TimedTask.isDue (t : TimedTask) (now : Nat) : Bool :=
  t.enabled && decide (usub32 now t.next_deadline ≤ Scheduler.TIME_BOUND)

/-- Modelled from the spec: a call that the bound operation makes on its own task while
it runs, with the time of the call: "the operation itself ... may call back into the
scheduler to reschedule itself (`runRepeated(interval)`, `runOnce(delay)`)", or
`cancel()`. -/
inductive Scheduler.SelfCall where
  | runOnce (now delay : Nat)
  | runRepeated (now period : Nat)
  | cancel
deriving DecidableEq, Repr

/-- The effect of a call of the operation on its own task. -/
def TimedTask.call (t : TimedTask) : Scheduler.SelfCall → TimedTask
  | .runOnce now delay => t.runOnce now delay
  | .runRepeated now period => t.runRepeated now period
  | .cancel => t.cancel

/-- One visit of a task by `runIteration`: the time `now` of the test, and for the case
that the task is executed the calls that its operation makes on its own task, in
order, and the time `finish` at which the operation returns. -/
structure Scheduler.Visit where
  /-- Time of the test whether the task is due. -/
  now : Nat
  /-- Calls of the operation on its own task. -/
  calls : List Scheduler.SelfCall
  /-- Time at which the operation returns. -/
  finish : Nat
deriving DecidableEq, Repr

/-- The advanced deadline is strictly in the past at time `finish`, on the wrapping
clock. -/
def Scheduler.isPast (advanced finish : Nat) : Bool :=
  decide (0 < usub32 finish advanced ∧ usub32 finish advanced ≤ Scheduler.TIME_BOUND)

/-- Modelled from the spec: what `runIteration` does with a due task. A one-shot task
"is removed from due consideration ... after it fires once, until explicitly
rescheduled", so that a reschedule by its own operation stands. A periodic task runs
its operation, which may call back on the task, and then, "if the task is periodic",
the scheduler will "advance next-deadline by exactly one period measured from the
previous deadline (not from now)": the previous deadline is the one at which the task
was due in this iteration, so an operation that re-armed its task with `runRepeated`
and the scheduler arrive at the same deadline. "If the advanced deadline is already in
the past ..., immediately mark it due again without catching up on missed events." -/
def Scheduler.fired (t : TimedTask) (calls : List Scheduler.SelfCall) (finish : Nat) :
    TimedTask :=
  match t.period with
  | none => calls.foldl TimedTask.call { t with enabled := false }
  | some _ =>
    let t1 := calls.foldl TimedTask.call t
    match t1.period with
    | some p =>
      { t1 with next_deadline :=
          if Scheduler.isPast (t.next_deadline + p) finish then finish
          else t.next_deadline + p }
    | none => t1

/-- Modelled from the spec: one visit of a task by `runIteration`. The result says
whether the task was executed. -/
def Scheduler.visit (t : TimedTask) (v : Scheduler.Visit) : TimedTask × Bool :=
  if t.isDue v.now then (Scheduler.fired t v.calls v.finish, true) else (t, false)

/-- The visits of successive iterations; returns the task and the deadlines at which
it was executed, in order. -/
def Scheduler.visits : TimedTask → List Scheduler.Visit → TimedTask × List Nat
  | t, [] => (t, [])
  | t, v :: vs =>
    let r := Scheduler.visit t v
    let rest := Scheduler.visits r.1 vs
    (rest.1, if r.2 then t.next_deadline :: rest.2 else rest.2)

/-- The task with period `p` is never late during the visits: whenever it is
executed, its operation returns no later than the advanced deadline. -/
def Scheduler.neverLate (p : Nat) : TimedTask → List Scheduler.Visit → Bool
  | _, [] => true
  | t, v :: vs =>
    (!t.isDue v.now || !Scheduler.isPast (t.next_deadline + p) v.finish) &&
    Scheduler.neverLate p (Scheduler.visit t v).1 vs

/-- The operation leaves its own task alone or re-arms it with `runRepeated(p)`, as
`TFT::displayUpdate` does with `display_update_task_.runRepeated(INTERVAL_DISPLAY_UPDATE)`
on every run. -/
def Scheduler.Visit.rearmsWith (p : Nat) (v : Scheduler.Visit) : Bool :=
  v.calls.all fun c =>
    match c with
    | .runRepeated _ q => decide (q = p)
    | _ => false

/-! ### `KWLConfig.h`: touch calibration -/

/-- Type `struct TouchCalibration`: touchscreen calibration settings. -/
structure TouchCalibration where
  /-- Signal mapping to the left boundary (`uint16_t`). -/
  left_ : Nat
  /-- Signal mapping to the right boundary (`uint16_t`). -/
  right_ : Nat
  /-- Signal mapping to the top boundary (`uint16_t`). -/
  top_ : Nat
  /-- Signal mapping to the bottom boundary (`uint16_t`). -/
  bottom_ : Nat
  /-- X/Y swap flag. -/
  swap_xy_ : Bool
  /-- Calibration flag. -/
  calibrated_ : Bool
deriving DecidableEq, Repr

/-- Conversion `uint16_t(v)` of an `int16_t` value. -/
def toUInt16 (v : Int) : Nat := (v % 65536).toNat

/-- Function `TouchCalibration::reset(int16_t w, int16_t h)`. -/
def TouchCalibration.reset (_cal : TouchCalibration) (w h : Int) : TouchCalibration :=
  { left_ := 0, right_ := toUInt16 w, top_ := 0, bottom_ := toUInt16 h,
    swap_xy_ := false, calibrated_ := false }

/-! ### `TFT.cpp`: timing constants and popup geometry -/

/-- Interval for detecting second menu button press (500ms). -/
def INTERVAL_MENU_BTN : Nat := 500
/-- Interval for returning back to main screen if nothing pressed (1m). -/
def INTERVAL_TOUCH_TIMEOUT : Nat := 60000
/-- Interval for turning off the display (if possible) if nothing pressed (5m). -/
def INTERVAL_DISPLAY_TIMEOUT : Nat := 5 * 60000
/-- If the user doesn't confirm the popup within this time, it will be closed automatically. -/
def POPUP_TIMEOUT_MS : Nat := 10000
/-- If the user doesn't change anything in popup flags within this time, it will be closed
automatically. -/
def POPUP_FLAG_TIMEOUT_MS : Nat := 30000
/-- Minimum time in ms to not react on input on screen turned off. -/
def SCREEN_OFF_MIN_TIME : Nat := 2000
/-- Delay for 4s to be able to read display messages. -/
def STARTUP_DELAY : Nat := 4000

/-- Menu button width. -/
def TOUCH_BTN_WIDTH : Int := 60
/-- Popup width. -/
def POPUP_W : Int := 370
/-- Popup title height. -/
def POPUP_TITLE_H : Int := 30
/-- Popup height. -/
def POPUP_H : Int := 150
/-- Popup button width. -/
def POPUP_BTN_W : Int := 60
/-- Popup button height. -/
def POPUP_BTN_H : Int := 30
/-- Popup flag width. -/
def POPUP_FLAG_W : Int := 35
/-- Popup flag spacing. -/
def POPUP_FLAG_SPACING : Int := 10
/-- Popup flag height. -/
def POPUP_FLAG_H : Int := 30
/-- Popup X position. -/
def POPUP_X : Int := (480 - TOUCH_BTN_WIDTH - POPUP_W) / 2
/-- Popup Y position. -/
def POPUP_Y : Int := (320 - POPUP_H - POPUP_TITLE_H) / 2
/-- Popup button Y position. -/
def POPUP_BTN_Y : Int := POPUP_Y + POPUP_TITLE_H + POPUP_H - 10 - POPUP_BTN_H
/-- Popup button X position. -/
def POPUP_BTN_X : Int := (480 - TOUCH_BTN_WIDTH - POPUP_BTN_W) / 2
/-- Popup flags Y position. -/
def POPUP_FLAG_Y : Int := POPUP_BTN_Y - 10 - POPUP_BTN_H
/-- Popup flags X position. -/
def POPUP_FLAG_X : Int := POPUP_X + POPUP_FLAG_SPACING

/-- Width of the display in its orientation `setRotation(1)`, as used throughout
`TFT.cpp` (`tft_.width()`). -/
def TFT_WIDTH : Int := 480
/-- Height of the display in its orientation `setRotation(1)` (`tft_.height()`). -/
def TFT_HEIGHT : Int := 320

/-! ### `TFT.cpp`: screens -/

/-- The screen classes that `TFT::gotoScreen<ScreenClass>` instantiates. -/
inductive ScreenClass where
  | ScreenSaver
  | ScreenInit
  | ScreenMain
  | ScreenSetup
  | ScreenSetupFan
  | ScreenSetupIPAddress
  | ScreenSetupBypass
  | ScreenSetupTime
  | ScreenSetupAntifreeze
  | ScreenSetupProgram
  | ScreenSetupFactoryDefaults
  | ScreenCalibration
deriving DecidableEq, Repr

/-- The constant `ID` of every screen class. -/
def ScreenClass.ID : ScreenClass → Nat
  | .ScreenSaver => 2 ^ 1
  | .ScreenInit => 2 ^ 3
  | .ScreenMain => 2 ^ 4
  | .ScreenSetup => 2 ^ 6
  | .ScreenSetupFan => 2 ^ 8
  | .ScreenSetupIPAddress => 2 ^ 9
  | .ScreenSetupBypass => 2 ^ 10
  | .ScreenSetupTime => 2 ^ 11
  | .ScreenSetupAntifreeze => 2 ^ 12
  | .ScreenSetupProgram => 2 ^ 13
  | .ScreenSetupFactoryDefaults => 2 ^ 14
  | .ScreenCalibration => 2 ^ 15

/-- The main screen and the setup screens: the classes whose `update()` is that of
`ScreenWithHeader` (`ScreenMain` draws its values first and then calls it). -/
def ScreenClass.isMainOrSetup : ScreenClass → Bool
  | .ScreenSaver => false
  | .ScreenInit => false
  | .ScreenCalibration => false
  | _ => true

/-- The member function stored in `popup_action_` (`void (Screen::*)()`): either
`&Screen::gotoScreen<NextScreen>` or `&ScreenWithHeader::doRestartImpl`. It is also
what an `update()` or `touch()` asks its owner to do as its last step. -/
inductive PopupAction where
  | gotoScreen (next : ScreenClass)
  | doRestartImpl
deriving DecidableEq, Repr

/-- Type `ScreenWithHeader::PopupFlagsState`: the edited flags (the byte that `flags_`
points to) and their count; the flag names only matter for drawing. -/
structure PopupFlagsState where
  /-- The flags being edited, `*flags_`. -/
  flags_ : Nat
  /-- Count of flags. -/
  flag_count_ : Nat
deriving DecidableEq, Repr

/-- The screen object living in `dynamic_space_`: its dynamic class and the data members
of `TFT::Screen`, `ScreenSaver`, `ScreenWithHeader`, `ScreenInit`,
`ScreenCalibration`, `ScreenWithMenuButtons` and `ScreenMain` that take part in timing
decisions. Members that only cache what was drawn and the values being edited on the
setup screens are left out; a member of a class other than `cls` keeps its initial
value. -/
structure Screen where
  /-- Dynamic class of the object. -/
  cls : ScreenClass
  /-- Member `Screen::last_input_time_`: last time an input was detected. -/
  last_input_time_ : Nat
  /-- Member `ScreenWithHeader::millis_popup_show_time_`: time at which the popup started showing. -/
  millis_popup_show_time_ : Nat
  /-- Member `ScreenWithHeader::popup_action_`: action for popup timeout and OK button. -/
  popup_action_ : Option PopupAction
  /-- Member `ScreenWithHeader::popup_flags_`: popup flags to use. -/
  popup_flags_ : Option PopupFlagsState
  /-- Member `ScreenSaver::millis_screen_blank_`: time at which the screen went blank. -/
  millis_screen_blank_ : Nat
  /-- Member `ScreenInit::update_count_` (`uint8_t`). -/
  update_count_ : Nat
  /-- Member `ScreenInit::first_update_`. -/
  first_update_ : Nat
  /-- Member `ScreenCalibration::stage_`: current calibration stage (`int8_t`). -/
  stage_ : Int
  /-- Member `ScreenCalibration::touch_start_time_`: start time at which touch was detected. -/
  touch_start_time_ : Nat
  /-- Member `ScreenWithMenuButtons::millis_last_menu_btn_press_`: time at which the menu
  button was last pressed. -/
  millis_last_menu_btn_press_ : Nat
  /-- Member `ScreenMain::touch_start_`: start time of a touch outside the menu. -/
  touch_start_ : Nat
deriving DecidableEq, Repr

/-- Construction `new(dynamic_space_) ScreenClass(*this)` at a moment when `millis()`
reads `now`: `Screen::Screen` sets `last_input_time_(millis())`, the other members get
their default member initializers. -/
def Screen.construct (c : ScreenClass) (now : Nat) : Screen :=
  { cls := c
    last_input_time_ := now % U32
    millis_popup_show_time_ := 0
    popup_action_ := none
    popup_flags_ := none
    millis_screen_blank_ := 0
    update_count_ := 0
    first_update_ := 0
    stage_ := -1
    touch_start_time_ := 0
    millis_last_menu_btn_press_ := 0
    touch_start_ := 0 }

/-- The three ways through `TFT::Screen::update`. -/
inductive UpdateBranch where
  | displayTimeout
  | touchTimeout
  | noTimeout
deriving DecidableEq, Repr

/-- The branch that `TFT::Screen::update` takes when `millis()` reads `now`:
`auto time = millis() - last_input_time_; if (time > INTERVAL_DISPLAY_TIMEOUT) ...
else if (time > INTERVAL_TOUCH_TIMEOUT) ...`. -/
def Screen.updateBranch (scr : Screen) (now : Nat) : UpdateBranch :=
  let time := usub32 now scr.last_input_time_
  if time > INTERVAL_DISPLAY_TIMEOUT then .displayTimeout
  else if time > INTERVAL_TOUCH_TIMEOUT then .touchTimeout
  else .noTimeout

/-- Function `TFT::Screen::update`: turn off the display after the display timeout, go to the
main screen after the touch timeout unless it is the current screen. The result is the
screen switch it ends with, if any. -/
def Screen.update (scr : Screen) (now current_screen_id_ : Nat) : Option PopupAction :=
  match scr.updateBranch now with
  | .displayTimeout => some (.gotoScreen .ScreenSaver)
  | .touchTimeout =>
    if current_screen_id_ ≠ ScreenClass.ScreenMain.ID then some (.gotoScreen .ScreenMain)
    else none
  | .noTimeout => none

/-- Function `Screen::touch`: `last_input_time_ = time; return false;`. -/
def Screen.touch (scr : Screen) (time : Nat) : Screen :=
  { scr with last_input_time_ := time }

/-- Function `ScreenSaver::update`: no `Screen::update()`; moves the blank time along so that
`time - millis_screen_blank_` stays at most `SCREEN_OFF_MIN_TIME`. -/
def ScreenSaver.update (scr : Screen) (now : Nat) : Screen :=
  if usub32 now scr.millis_screen_blank_ > SCREEN_OFF_MIN_TIME then
    { scr with millis_screen_blank_ := usub32 now SCREEN_OFF_MIN_TIME }
  else scr

/-- Function `ScreenSaver::touch`: after `Screen::touch`, wake up to the main screen when the
screen has been blank for at least `SCREEN_OFF_MIN_TIME`; always consumes the touch. -/
def ScreenSaver.touch (scr : Screen) (time : Nat) : Screen × Option PopupAction :=
  let scr1 := scr.touch time
  if usub32 time scr1.millis_screen_blank_ ≥ SCREEN_OFF_MIN_TIME then
    (scr1, some (.gotoScreen .ScreenMain))
  else (scr1, none)

/-- The `timeout` of `ScreenWithHeader::update`: `POPUP_TIMEOUT_MS`, or
`POPUP_FLAG_TIMEOUT_MS` if `popup_flags_` is set. -/
def ScreenWithHeader.popupTimeout (scr : Screen) : Nat :=
  if scr.popup_flags_.isSome then POPUP_FLAG_TIMEOUT_MS else POPUP_TIMEOUT_MS

/-- The test `millis() - millis_popup_show_time_ > timeout` of `ScreenWithHeader::update`. -/
def ScreenWithHeader.popupTimedOut (scr : Screen) (now : Nat) : Bool :=
  decide (usub32 now scr.millis_popup_show_time_ > ScreenWithHeader.popupTimeout scr)

/-- Function `ScreenWithHeader::update`: a popup that timed out is closed and its action is
executed (the result), otherwise the header and status line are drawn and
`Screen::update()` runs. -/
def ScreenWithHeader.update (scr : Screen) (now current_screen_id_ : Nat) :
    Screen × Option PopupAction :=
  match scr.popup_action_ with
  | some tmp =>
    if ScreenWithHeader.popupTimedOut scr now then ({ scr with popup_action_ := none }, some tmp)
    else (scr, scr.update now current_screen_id_)
  | none => (scr, scr.update now current_screen_id_)

/-- Function `ScreenWithHeader::doPopupImpl` when `millis()` reads `now`. -/
def ScreenWithHeader.doPopupImpl (scr : Screen) (now : Nat) (action : PopupAction) : Screen :=
  { scr with millis_popup_show_time_ := now % U32, popup_action_ := some action,
             popup_flags_ := none }

/-- Function `ScreenWithHeader::doPopup<NextScreen>`. -/
def ScreenWithHeader.doPopup (scr : Screen) (now : Nat) (next : ScreenClass) : Screen :=
  ScreenWithHeader.doPopupImpl scr now (.gotoScreen next)

/-- Function `ScreenWithHeader::doRestart`: restart the controller after displaying the message. -/
def ScreenWithHeader.doRestart (scr : Screen) (now : Nat) : Screen :=
  ScreenWithHeader.doPopupImpl scr now .doRestartImpl

/-- Function `ScreenWithHeader::setPopupFlags`. -/
def ScreenWithHeader.setPopupFlags (scr : Screen) (flags : PopupFlagsState) : Screen :=
  { scr with popup_flags_ := some flags }

/-- Function `ScreenWithHeader::touch`: the new screen state, whether the touch was consumed and
the popup action executed by a touch of the OK button. -/
def ScreenWithHeader.touch (scr : Screen) (x y : Int) (time : Nat) :
    Screen × Bool × Option PopupAction :=
  let scr1 := scr.touch time
  match scr1.popup_action_ with
  | none => (scr1, false, none)
  | some tmp =>
    let onFlag : Option PopupFlagsState :=
      match scr1.popup_flags_ with
      | some f =>
        if y ≥ POPUP_FLAG_Y - 10 ∧ y ≤ POPUP_FLAG_Y + POPUP_FLAG_H + 5 ∧
            x ≥ POPUP_FLAG_X - POPUP_FLAG_SPACING / 2 ∧
            ((x - POPUP_FLAG_X + POPUP_FLAG_SPACING / 2) / (POPUP_FLAG_W + POPUP_FLAG_SPACING)
              % 256).toNat < f.flag_count_
        then some f else none
      | none => none
    match onFlag with
    | some f =>
      let idx := ((x - POPUP_FLAG_X + POPUP_FLAG_SPACING / 2) / (POPUP_FLAG_W + POPUP_FLAG_SPACING)
        % 256).toNat
      if usub32 time scr1.millis_popup_show_time_ ≥ INTERVAL_MENU_BTN then
        ({ scr1 with
            popup_flags_ := some { f with flags_ := f.flags_ ^^^ (2 ^ idx % 256) }
            millis_popup_show_time_ := time }, true, none)
      else (scr1, true, none)
    | none =>
      if x ≥ POPUP_BTN_X - 20 ∧ x < POPUP_BTN_X + POPUP_BTN_W + 20 ∧
          y ≥ POPUP_BTN_Y - 20 ∧ y < POPUP_BTN_Y + POPUP_BTN_H + 20 then
        ({ scr1 with popup_action_ := none }, true, some tmp)
      else (scr1, true, none)

/-- Function `ScreenInit::update`: counts the updates and switches to the main screen when
the startup delay has passed since the second one. -/
def ScreenInit.update (scr : Screen) (now : Nat) : Screen × Option PopupAction :=
  let count := (scr.update_count_ + 1) % 256
  if count = 2 then
    ({ scr with update_count_ := count, first_update_ := now % U32 }, none)
  else if count > 2 ∧ usub32 now scr.first_update_ > STARTUP_DELAY - 100 then
    ({ scr with update_count_ := count }, some (.gotoScreen .ScreenMain))
  else ({ scr with update_count_ := count }, none)

/-- Function `ScreenCalibration::update`: "intentionally overridden as empty, unless popup is
already showing". -/
def ScreenCalibration.update (scr : Screen) (now current_screen_id_ : Nat) :
    Screen × Option PopupAction :=
  if scr.popup_action_.isSome then ScreenWithHeader.update scr now current_screen_id_
  else (scr, none)

/-- Function `ScreenCalibration::touch` when `millis()` reads `now`: in stage 4 and later it is
`ScreenWithHeader::touch`; before that the touch is measured here, without a call of
the base class. `startMeasurement()` resets `touch_start_time_`, `finish()` stores the
computed calibration (floating point, not represented) and shows the final popup. -/
def ScreenCalibration.touch (scr : Screen) (x y : Int) (time now : Nat) :
    Screen × Bool × Option PopupAction :=
  if scr.stage_ ≥ 4 then ScreenWithHeader.touch scr x y time
  else
    let scr1 := if scr.touch_start_time_ = 0 then { scr with touch_start_time_ := time } else scr
    let delta := usub32 time scr1.touch_start_time_
    if scr1.stage_ < 0 then
      if delta > 200 then ({ scr1 with stage_ := 0, touch_start_time_ := 0 }, true, none)
      else (scr1, true, none)
    else if delta > 1000 then
      if scr1.stage_ + 1 = 4 then
        (ScreenWithHeader.doPopup { scr1 with stage_ := scr1.stage_ + 1 } now .ScreenMain,
          true, none)
      else ({ scr1 with stage_ := scr1.stage_ + 1, touch_start_time_ := 0 }, true, none)
    else (scr1, true, none)

/-- The virtual call `current_screen_->touch(x, y, time)` up to the point where the
handlers of the classes derived from `ScreenWithHeader` take over: the `touch` of the
screens with menu buttons or input fields, of the main and of the setup screen call their
base class first and go on only if that did not consume the touch. -/
def Screen.dispatchTouch (scr : Screen) (x y : Int) (time now : Nat) :
    Screen × Bool × Option PopupAction :=
  match scr.cls with
  | .ScreenSaver => ((ScreenSaver.touch scr time).1, true, (ScreenSaver.touch scr time).2)
  | .ScreenCalibration => ScreenCalibration.touch scr x y time now
  | _ => ScreenWithHeader.touch scr x y time

/-- The virtual call `current_screen_->update()`. -/
def Screen.dispatchUpdate (scr : Screen) (now current_screen_id_ : Nat) :
    Screen × Option PopupAction :=
  match scr.cls with
  | .ScreenSaver => (ScreenSaver.update scr now, none)
  | .ScreenInit => ScreenInit.update scr now
  | .ScreenCalibration => ScreenCalibration.update scr now current_screen_id_
  | _ => ScreenWithHeader.update scr now current_screen_id_

/-! ### `TFT.cpp`: the display controller -/

/-- What the display code reaches outside itself: the watchdog (`wdt_disable()`), the
program counter (`jmp 0`) and the crash records of the persistent configuration
(`CrashData crashes_[KWLConfig::MaxCrashReportCount]`). -/
structure Device where
  /-- The watchdog timer is enabled. -/
  wdt_enabled : Bool
  /-- Control was transferred to the boot vector (`asm volatile ("jmp 0")`). -/
  at_boot_vector : Bool
  /-- The persisted crash records, `KWLPersistentConfig::crashes_`. -/
  crashes_ : List CrashData
deriving DecidableEq, Repr

/-- The data members of `class TFT` that the screens read and write, and the device. The
class declaration (`TFT.h`) is not among the sources; the members are those used in
`TFT.cpp`. `last_screen_ids_` only steers drawing and is left out. -/
structure TFT where
  /-- Current screen object, `nullptr` before the first screen is set up. -/
  current_screen_ : Option Screen
  /-- ID of the current screen. -/
  current_screen_id_ : Nat
  /-- A touch is in progress. -/
  touch_in_progress_ : Bool
  /-- Time of the last touch. -/
  millis_last_touch_ : Nat
  /-- Touch calibration `*cal_` in the persistent configuration. -/
  cal_ : TouchCalibration
  /-- Watchdog, program counter and crash records. -/
  device : Device
deriving DecidableEq, Repr

/-- Function `ScreenWithHeader::doRestartImpl`: `wdt_disable(); asm volatile ("jmp 0");`. -/
def TFT.doRestartImpl (tft : TFT) : TFT :=
  { tft with device := { tft.device with wdt_enabled := false, at_boot_vector := true } }

/-- The call `doRestart(title, message)` made by the current screen when `millis()`
reads `now`. -/
def TFT.doRestart (tft : TFT) (now : Nat) : TFT :=
  match tft.current_screen_ with
  | none => tft
  | some scr => { tft with current_screen_ := some (ScreenWithHeader.doRestart scr now) }

/-- The virtual call `current_screen_->init()` when `millis()` reads `now`, as far as
it changes members kept here: `ScreenSaver::init` sets `millis_screen_blank_`,
`ScreenCalibration::init` sets the mapping `*cal_` to identity; everything else draws. -/
def TFT.initScreen (tft : TFT) (now : Nat) : TFT :=
  match tft.current_screen_ with
  | none => tft
  | some scr =>
    match scr.cls with
    | .ScreenSaver =>
      { tft with current_screen_ := some { scr with millis_screen_blank_ := now % U32 } }
    | .ScreenCalibration => { tft with cal_ := tft.cal_.reset TFT_WIDTH TFT_HEIGHT }
    | _ => tft

/-- Function `TFT::gotoScreen<ScreenClass>` up to its final `displayUpdate()`: on the right screen
already only `init()`, else a new screen object is constructed and initialized and the
IDs are set. -/
def TFT.switchScreen (tft : TFT) (c : ScreenClass) (now : Nat) : TFT :=
  if tft.current_screen_id_ = c.ID then tft.initScreen now
  else
    let tft1 := { tft with current_screen_ := some (Screen.construct c now) }.initScreen now
    { tft1 with current_screen_id_ := c.ID, touch_in_progress_ := false }

/-- Function `TFT::displayUpdate` when `millis()` reads `now`: `current_screen_->update()`, whose
last step may be a restart or a `gotoScreen<ScreenClass>()`, which ends with
`displayUpdate()` again (the nesting is bounded by `fuel`, `none` if it is used up).
The re-arming `display_update_task_.runRepeated(INTERVAL_DISPLAY_UPDATE)` belongs to the
scheduler model. -/
def TFT.displayUpdate : Nat → Nat → TFT → Option TFT
  | 0, _, _ => none
  | fuel + 1, now, tft =>
    match tft.current_screen_ with
    | none => some tft
    | some scr =>
      let r := scr.dispatchUpdate now tft.current_screen_id_
      let tft1 := { tft with current_screen_ := some r.1 }
      match r.2 with
      | none => some tft1
      | some .doRestartImpl => some tft1.doRestartImpl
      | some (.gotoScreen c) => TFT.displayUpdate fuel now (tft1.switchScreen c now)

/-- Function `TFT::gotoScreen<ScreenClass>` when `millis()` reads `now`. -/
def TFT.gotoScreen (fuel : Nat) (tft : TFT) (c : ScreenClass) (now : Nat) : Option TFT :=
  TFT.displayUpdate fuel now (tft.switchScreen c now)

/-- Execution of the action `(this->*tmp)()` that an `update()` or `touch()` ended with. -/
def TFT.perform (fuel : Nat) (tft : TFT) (now : Nat) : Option PopupAction → Option TFT
  | none => some tft
  | some .doRestartImpl => some tft.doRestartImpl
  | some (.gotoScreen c) => tft.gotoScreen fuel c now

/-- A touch delivered to the current screen as far as `ScreenWithHeader::touch` handles it:
every `touch` override of a screen with header calls its base class first and returns
when that consumed the touch, which it does for every touch while a popup is showing.
The result tells whether the touch was consumed. -/
def TFT.touchScreenWithHeader (fuel : Nat) (tft : TFT) (x y : Int) (time now : Nat) :
    Option (TFT × Bool) :=
  match tft.current_screen_ with
  | none => some (tft, false)
  | some scr =>
    let r := ScreenWithHeader.touch scr x y time
    (TFT.perform fuel { tft with current_screen_ := some r.1 } now r.2.2).map
      fun tft2 => (tft2, r.2.1)

/-- The display updates of the scheduler, one at each of the times `ts`. -/
def TFT.displayUpdates (fuel : Nat) : List Nat → TFT → Option TFT
  | [], tft => some tft
  | now :: ts, tft => (TFT.displayUpdate fuel now tft).bind (TFT.displayUpdates fuel ts)

/-- A display that shows a screen of class `c` on which the last input happened at
time `t0`, with no popup, in a running system without crash records. -/
def TFT.showing (c : ScreenClass) (t0 : Nat) : TFT :=
  { current_screen_ := some (Screen.construct c t0)
    current_screen_id_ := c.ID
    touch_in_progress_ := false
    millis_last_touch_ := t0
    cal_ := { left_ := 0, right_ := 480, top_ := 0, bottom_ := 320, swap_xy_ := false,
              calibrated_ := true }
    device := { wdt_enabled := true, at_boot_vector := false,
                crashes_ := List.replicate MaxCrashReportCount default } }

/-- The times of `n` display updates, one every `INTERVAL_DISPLAY_UPDATE` (1 s) after `t0`,
in milliseconds. -/
def TFT.everySecond (t0 n : Nat) : List Nat :=
  (List.range n).map fun k => t0 + (k + 1) * 1000

/-- The time from which the display timeout of the main screen counts when the screen
`scr` is left alone: its last input if it is the main screen, else the time `u1` of the
update that returns to the main screen. -/
def TFT.timeoutStart (scr : Screen) (u1 : Nat) : Nat :=
  if scr.cls = .ScreenMain then scr.last_input_time_ else u1 % U32

/-- A task with period 1000 that is first due at time 1000. -/
def Scheduler.sampleTask : TimedTask :=
  { enabled := true, next_deadline := 1000, period := some 1000 }

/-- Iterations that visit the task every 10 time units or so; its operation takes 5
to 9 time units and re-arms the task with `runRepeated(1000)` at its end. -/
def Scheduler.sampleVisits : List Scheduler.Visit :=
  [⟨990, [.runRepeated 990 1000], 990⟩, ⟨1000, [.runRepeated 1005 1000], 1005⟩,
   ⟨1010, [.runRepeated 1010 1000], 1010⟩, ⟨2003, [.runRepeated 2009 1000], 2009⟩,
   ⟨2013, [.runRepeated 2013 1000], 2013⟩, ⟨3009, [.runRepeated 3018 1000], 3018⟩]

/-- A task with period 1000 that is due 296 time units before the 32-bit counter
wraps. -/
def Scheduler.wrappingTask : TimedTask :=
  { enabled := true, next_deadline := 4294967000, period := some 1000 }

/-- Iterations around the wrap of the counter, with the times as the counter reads
them; the operation re-arms the task at its end. -/
def Scheduler.wrappingVisits : List Scheduler.Visit :=
  [⟨4294966990, [], 4294966990⟩, ⟨4294967003, [.runRepeated 4294967008 1000], 4294967008⟩,
   ⟨700, [.runRepeated 700 1000], 700⟩, ⟨710, [.runRepeated 716 1000], 716⟩,
   ⟨1705, [.runRepeated 1711 1000], 1711⟩]

/-! ### `TFT.cpp`: the network setup screen -/

/-- Element access `IPAddressLiteral::operator[]` for reading, index 0 to 3. -/
def IPAddressLiteral.get (a : IPAddressLiteral) (index : Nat) : Nat :=
  match index with
  | 0 => a.ip0
  | 1 => a.ip1
  | 2 => a.ip2
  | _ => a.ip3

/-- Element access `IPAddressLiteral::operator[]` for writing a `byte`, index 0 to 3. -/
def IPAddressLiteral.set (a : IPAddressLiteral) (index : Nat) (v : Nat) : IPAddressLiteral :=
  match index with
  | 0 => { a with ip0 := v % 256 }
  | 1 => { a with ip1 := v % 256 }
  | 2 => { a with ip2 := v % 256 }
  | _ => { a with ip3 := v % 256 }

/-- The loop `for (uint8_t col = 0; col < current_col; ++col) if (mask_[col] != 255)
mask_[col] = 255;` of `updateValue`: everything to the left is 255. -/
def IPAddressLiteral.fillLeft (a : IPAddressLiteral) (current_col : Nat) : IPAddressLiteral :=
  { ip0 := if 0 < current_col then 255 else a.ip0
    ip1 := if 1 < current_col then 255 else a.ip1
    ip2 := if 2 < current_col then 255 else a.ip2
    ip3 := if 3 < current_col then 255 else a.ip3 }

/-- The loop `for (uint8_t col = 3; col > current_col; --col) if (mask_[col] != 0)
mask_[col] = 0;` of `updateValue`: everything to the right is 0. -/
def IPAddressLiteral.clearRight (a : IPAddressLiteral) (current_col : Nat) : IPAddressLiteral :=
  { ip0 := a.ip0
    ip1 := if current_col < 1 then 0 else a.ip1
    ip2 := if current_col < 2 then 0 else a.ip2
    ip3 := if current_col < 3 then 0 else a.ip3 }

/-- Conversion `unsigned(delta)` of an `int` (16 bits on the AVR target). -/
def toUnsigned (delta : Int) : Nat := (delta % 65536).toNat

/-- The data members of `class ScreenSetupIPAddress` and the current input field of its
base `ScreenWithInput` (row 1-based, 0 for none; column 0-based). -/
structure ScreenSetupIPAddress where
  /-- Currently selected input row, `getCurrentRow()`. -/
  input_current_row_ : Nat
  /-- Currently selected input column, `getCurrentColumn()`. -/
  input_current_col_ : Nat
  /-- IP address. -/
  ip_ : IPAddressLiteral
  /-- Gateway address. -/
  gw_ : IPAddressLiteral
  /-- Network mask. -/
  mask_ : IPAddressLiteral
  /-- MQTT server. -/
  mqtt_ : IPAddressLiteral
  /-- MQTT port to use (`uint16_t`). -/
  mqtt_port_ : Nat
  /-- NTP server. -/
  ntp_ : IPAddressLiteral
  /-- DNS server (not displayed). -/
  dns_ : IPAddressLiteral
  /-- MAC address, the six elements of `MACAddressLiteral`. -/
  mac_ : List Nat
  /-- Value of the current element being modified (`uint16_t`). -/
  cur_ : Nat
deriving DecidableEq, Repr

/-- Function `ScreenSetupIPAddress::input_field_enter`: load `cur_` from the element of the
current row and column. -/
def ScreenSetupIPAddress.input_field_enter (s : ScreenSetupIPAddress) : ScreenSetupIPAddress :=
  match s.input_current_row_ with
  | 2 => { s with cur_ := s.mask_.get s.input_current_col_ }
  | 3 => { s with cur_ := s.gw_.get s.input_current_col_ }
  | 4 => { s with cur_ := s.mqtt_.get s.input_current_col_ }
  | 5 => { s with cur_ := s.mqtt_port_ }
  | 6 => { s with cur_ := s.ntp_.get s.input_current_col_ }
  | 7 => { s with cur_ := s.mac_.getD s.input_current_col_ 0 }
  | _ => { s with cur_ := s.ip_.get s.input_current_col_ }

/-- The `new_value` computed by `ScreenSetupIPAddress::updateValue(int delta)`: on the
netmask row a shift of the bits, on the other rows a saturating addition. -/
def ScreenSetupIPAddress.newValue (s : ScreenSetupIPAddress) (delta : Int) : Nat :=
  if s.input_current_row_ = 2 then
    if delta < 0 then (s.cur_ <<< 1) % 65536 &&& 255
    else (s.cur_ >>> 1) ||| 128
  else if delta < 0 then
    if toUnsigned (-delta) > s.cur_ then 0 else s.cur_ - toUnsigned (-delta)
  else
    let new_value := (s.cur_ + toUnsigned delta) % 65536
    if s.input_current_row_ = 5 then
      if new_value < s.cur_ then 65535 else new_value
    else if new_value > 255 then 255
    else new_value

/-- Function `ScreenSetupIPAddress::updateValue(int delta)`: nothing without a current row
or without a change; on the netmask row a new value other than 0 sets everything to the
left to 255 and a new value other than 255 sets everything to the right to 0; then
`cur_ = new_value`. -/
def ScreenSetupIPAddress.updateValue (s : ScreenSetupIPAddress) (delta : Int) :
    ScreenSetupIPAddress :=
  if s.input_current_row_ = 0 then s
  else
    let new_value := s.newValue delta
    if new_value = s.cur_ then s
    else if s.input_current_row_ = 2 then
      let mask1 := if new_value ≠ 0 then s.mask_.fillLeft s.input_current_col_ else s.mask_
      let mask2 := if new_value ≠ 255 then mask1.clearRight s.input_current_col_ else mask1
      { s with mask_ := mask2, cur_ := new_value }
    else { s with cur_ := new_value }

/-- The netmask as it is being edited: `mask_` with the value `cur_` in the current
column (where `input_field_leave` will store it). -/
def ScreenSetupIPAddress.editedMask (s : ScreenSetupIPAddress) : IPAddressLiteral :=
  s.mask_.set s.input_current_col_ s.cur_

/-- The four elements of a 32-bit value, most significant first. -/
def IPAddressLiteral.ofBits (v : Nat) : IPAddressLiteral :=
  { ip0 := v / 2 ^ 24 % 256, ip1 := v / 2 ^ 16 % 256, ip2 := v / 2 ^ 8 % 256, ip3 := v % 256 }

/-- The mask of `n` 1-bits followed by `32 - n` 0-bits. -/
def IPAddressLiteral.maskOfLength (n : Nat) : IPAddressLiteral :=
  IPAddressLiteral.ofBits (2 ^ 32 - 2 ^ (32 - n))

/-- A contiguous mask: a run of 1-bits followed by 0-bits, of any length from 0 to 32. -/
def IPAddressLiteral.isContiguousMask (a : IPAddressLiteral) : Bool :=
  (List.range 33).any fun n => decide (a = IPAddressLiteral.maskOfLength n)

/-- What `updateValue` on the netmask row can make of the edited mask `m`, as a function
of the edited mask alone: the element of the column is shifted (`down` for a negative
`delta`), a new element other than 0 fills the left, and `clear` clears the right. -/
def IPAddressLiteral.shiftMask (m : IPAddressLiteral) (col : Nat) (down clear : Bool) :
    IPAddressLiteral :=
  let cur := m.get col
  let new_value := if down then (2 * cur) % 256 else (cur / 2) ||| 128
  let mask1 := if new_value ≠ 0 then m.fillLeft col else m
  let mask2 := if clear then mask1.clearRight col else mask1
  mask2.set col new_value

/-- The element that `shiftMask` puts into the column. -/
def IPAddressLiteral.shiftedElement (m : IPAddressLiteral) (col : Nat) (down : Bool) : Nat :=
  if down then (2 * m.get col) % 256 else (m.get col / 2) ||| 128

/-- The network setup screen as its constructor fills it from the default configuration
(MQTT broker 192.168.20.240, port 1883, NTP and DNS server at the gateway), with the
input field at `row` and `col` entered. -/
def ScreenSetupIPAddress.defaults (row col : Nat) : ScreenSetupIPAddress :=
  ScreenSetupIPAddress.input_field_enter
    { input_current_row_ := row
      input_current_col_ := col
      ip_ := KWLDefaultConfig.NetworkIPAddress
      gw_ := KWLDefaultConfig.NetworkGateway KWLDefaultConfig.NetworkIPAddress
        KWLDefaultConfig.NetworkSubnetMask
      mask_ := KWLDefaultConfig.NetworkSubnetMask
      mqtt_ := IPAddressLiteral.lit 192 168 20 240
      mqtt_port_ := 1883
      ntp_ := KWLDefaultConfig.NetworkGateway KWLDefaultConfig.NetworkIPAddress
        KWLDefaultConfig.NetworkSubnetMask
      dns_ := KWLDefaultConfig.NetworkGateway KWLDefaultConfig.NetworkIPAddress
        KWLDefaultConfig.NetworkSubnetMask
      mac_ := [0xDE, 0xED, 0xBA, 0xFE, 0xFE, 0xED]
      cur_ := 0 }

/-! ### `TFT.cpp`: mapping of the touch point -/

/-- The value of a 32-bit signed `long` computation that mathematically yields `v`. -/
def toLong (v : Int) : Int := (v + 2147483648) % 4294967296 - 2147483648

/-- Conversion to the 16-bit `int` and `int16_t` of the target. -/
def toInt16 (v : Int) : Int := (v + 32768) % 65536 - 32768

/-- Arduino core function `long map(long x, long in_min, long in_max, long out_min,
long out_max)`, which is library code outside this repository: it returns
`(x - in_min) * (out_max - out_min) / (in_max - in_min) + out_min`, computed in `long`
with the truncating division; `none` for the division by zero. -/
def Arduino.map (x in_min in_max out_min out_max : Int) : Option Int :=
  if toLong (in_max - in_min) = 0 then none
  else
    some (toLong (Int.tdiv (toLong (toLong (x - in_min) * toLong (out_max - out_min)))
      (toLong (in_max - in_min)) + out_min))

/-- The position `xpos`, `ypos` that `TFT::loopTouch` computes from the raw point
`tp.x`, `tp.y` on a display of the given width and height: `SWAP(tp.x, tp.y)` if
`swap_xy_`, then `int16_t xpos = int(map(tp.x, cal_->left_, cal_->right_, 0,
tft_.width()))` and the same for `ypos` with `top_`, `bottom_` and the height. -/
def TFT.touchPosition (cal : TouchCalibration) (width height x y : Int) : Option (Int × Int) :=
  let tp : Int × Int := if cal.swap_xy_ then (y, x) else (x, y)
  (Arduino.map tp.1 cal.left_ cal.right_ 0 width).bind fun xpos =>
    (Arduino.map tp.2 cal.top_ cal.bottom_ 0 height).bind fun ypos =>
      some (toInt16 xpos, toInt16 ypos)

/-! ### `TFT.cpp`: the screen saver over time -/

/-- The screen saver as `TFT::gotoScreen<ScreenSaver>` constructs and initializes it when
the display is blanked at time `b`: `ScreenSaver::init` sets `millis_screen_blank_ =
millis()`. Times are counted in milliseconds since start and are not bounded; `millis()`
reads them modulo 2^32. -/
def ScreenSaver.blankedAt (b : Nat) : Screen :=
  { Screen.construct .ScreenSaver b with millis_screen_blank_ := b % U32 }

/-- The screen after `ScreenSaver::update` ran at each of the times `us`. -/
def ScreenSaver.updates (scr : Screen) (us : List Nat) : Screen :=
  us.foldl ScreenSaver.update scr

/-- The times `us` are in order, not before `prev` and not after `t`. -/
def ScreenSaver.inOrder (prev : Nat) : List Nat → Nat → Bool
  | [], t => decide (prev ≤ t)
  | u :: us, t => decide (prev ≤ u) && ScreenSaver.inOrder u us t

/-- The times `us` are in order between `prev` and `t`, and from each of the times
`prev`, `us` to the next one, and from the last one to `t`, less than
`2^32 - SCREEN_OFF_MIN_TIME` milliseconds pass. -/
def ScreenSaver.closelySpaced (prev : Nat) : List Nat → Nat → Bool
  | [], t => decide (prev ≤ t ∧ t - prev < U32 - SCREEN_OFF_MIN_TIME)
  | u :: us, t =>
    decide (prev ≤ u ∧ u - prev < U32 - SCREEN_OFF_MIN_TIME) && ScreenSaver.closelySpaced u us t

/-! ### `TFT.cpp`: a calibration that finishes late -/

/-- The calibration screen after touches at the given times, each handled by
`ScreenCalibration::touch` when `millis()` reads the time of the touch. -/
def ScreenCalibration.touches (scr : Screen) (times : List Nat) : Screen :=
  times.foldl (fun s time => (ScreenCalibration.touch s 0 0 time time).1) scr

/-- A calibration screen constructed at time 0 on which the four points are measured in
the first seven seconds except for the last one, which is measured 400 s after the
start; the touch at 401.1 s completes it and `finish()` shows the popup. -/
def ScreenCalibration.finishedLate : Screen :=
  ScreenCalibration.touches (Screen.construct .ScreenCalibration 0)
    [1000, 1300, 2000, 3100, 4000, 5100, 6000, 7100, 400000, 401100]

/-- A display showing a screen of class `c` on which a touch at time `t0` has just opened
a popup without flags that leads to the screen `next`. -/
def TFT.showingPopup (c : ScreenClass) (t0 : Nat) (next : ScreenClass) : TFT :=
  { TFT.showing c t0 with
    current_screen_ := some (ScreenWithHeader.doPopup (Screen.construct c t0) t0 next) }

/-! ### `TFT.cpp`: menu buttons and the setup screen -/

/-- First menu button Y offset. -/
def TOUCH_BTN_YOFFSET : Int := 30
/-- Time in ms for a very long touch on the main screen that starts the calibration. -/
def CALIBRATION_TIME : Nat := 8000
/-- Maximum menu button count. -/
def MAX_MENU_BTN_COUNT : Nat := 6

/-- The classes derived from `ScreenWithMenuButtons`: the main screen and the setup
screens below `ScreenSetup`. -/
def ScreenClass.hasMenuButtons : ScreenClass → Bool
  | .ScreenMain => true
  | .ScreenSetupFan => true
  | .ScreenSetupIPAddress => true
  | .ScreenSetupBypass => true
  | .ScreenSetupTime => true
  | .ScreenSetupAntifreeze => true
  | .ScreenSetupProgram => true
  | .ScreenSetupFactoryDefaults => true
  | _ => false

/-- The members `btn_h_`, `btn_y_` and `btn_count_` (`uint8_t`) of
`ScreenWithMenuButtons`, which `init()` fixes for each class. -/
structure MenuGeometry where
  /-- Menu button height. -/
  btn_h_ : Int
  /-- First menu button Y offset. -/
  btn_y_ : Int
  /-- Menu button count. -/
  btn_count_ : Nat
deriving DecidableEq, Repr

/-- The default member initializers `btn_h_ = 45`, `btn_y_ = TOUCH_BTN_YOFFSET`,
`btn_count_ = 6`. -/
def ScreenWithMenuButtons.defaultGeometry : MenuGeometry :=
  { btn_h_ := 45, btn_y_ := TOUCH_BTN_YOFFSET, btn_count_ := 6 }

/-- Function `ScreenWithMenuButtons::setMenuButtonCount`. -/
def ScreenWithMenuButtons.setMenuButtonCount (count : Nat) : MenuGeometry :=
  let count1 := if count > MAX_MENU_BTN_COUNT then MAX_MENU_BTN_COUNT
    else if count < 2 then 2 else count
  let h : Int := ((270 : Int) / (count1 : Int)) % 256
  let h1 : Int := if h > TOUCH_BTN_WIDTH then TOUCH_BTN_WIDTH else h
  { btn_count_ := count1, btn_h_ := h1,
    btn_y_ := (TOUCH_BTN_YOFFSET + 270 - h1 * (count1 : Int)) % 256 }

/-- The menu geometry after `init()`: `ScreenMain::init` calls `setMenuButtonCount(4)`,
the other classes keep the defaults. -/
def ScreenClass.menuGeometry : ScreenClass → MenuGeometry
  | .ScreenMain => ScreenWithMenuButtons.setMenuButtonCount 4
  | _ => ScreenWithMenuButtons.defaultGeometry

/-- What the action of a menu button does: exactly `gotoScreen<next>()`, or something
that depends on values which are not kept here (fan mode, input values, program data)
and may end with a popup or a screen switch. -/
inductive MenuAction where
  | gotoScreen (next : ScreenClass)
  | other
deriving DecidableEq, Repr

/-- The table `menu_btn_action_` that the `newMenuEntry` calls of `init()` fill, by
class and by index `mnuBtn - 1`; `none` for an empty entry. -/
def ScreenClass.menuAction : ScreenClass → Nat → Option MenuAction
  | .ScreenMain, 0 => some .other
  | .ScreenMain, 1 => some .other
  | .ScreenMain, 2 => some (.gotoScreen .ScreenSetup)
  | .ScreenMain, 3 => some (.gotoScreen .ScreenSaver)
  | .ScreenSetupFan, 0 => some (.gotoScreen .ScreenSetup)
  | .ScreenSetupFan, 1 => some .other
  | .ScreenSetupFan, 2 => some .other
  | .ScreenSetupFan, 3 => some .other
  | .ScreenSetupFan, 5 => some .other
  | .ScreenSetupIPAddress, 0 => some (.gotoScreen .ScreenSetup)
  | .ScreenSetupIPAddress, 1 => some .other
  | .ScreenSetupIPAddress, 2 => some .other
  | .ScreenSetupIPAddress, 3 => some .other
  | .ScreenSetupIPAddress, 4 => some .other
  | .ScreenSetupIPAddress, 5 => some .other
  | .ScreenSetupBypass, 0 => some (.gotoScreen .ScreenSetup)
  | .ScreenSetupBypass, 2 => some .other
  | .ScreenSetupBypass, 3 => some .other
  | .ScreenSetupBypass, 5 => some .other
  | .ScreenSetupTime, 0 => some (.gotoScreen .ScreenSetup)
  | .ScreenSetupTime, 2 => some .other
  | .ScreenSetupTime, 3 => some .other
  | .ScreenSetupTime, 5 => some .other
  | .ScreenSetupAntifreeze, 0 => some (.gotoScreen .ScreenSetup)
  | .ScreenSetupAntifreeze, 2 => some .other
  | .ScreenSetupAntifreeze, 3 => some .other
  | .ScreenSetupAntifreeze, 5 => some .other
  | .ScreenSetupProgram, 0 => some .other
  | .ScreenSetupProgram, 2 => some .other
  | .ScreenSetupProgram, 3 => some .other
  | .ScreenSetupProgram, 4 => some .other
  | .ScreenSetupProgram, 5 => some .other
  | .ScreenSetupFactoryDefaults, 0 => some (.gotoScreen .ScreenSetup)
  | .ScreenSetupFactoryDefaults, 5 => some .other
  | _, _ => none

/-- What `ScreenWithMenuButtons::touch` returns and leaves behind: the screen, whether
the touch was consumed, the popup action that a touch of the OK button executed, and
the index of the menu button that was accepted as pressed. -/
structure MenuTouch where
  /-- The screen object after the call. -/
  scr : Screen
  /-- The return value. -/
  consumed : Bool
  /-- The popup action executed by `ScreenBase::touch`. -/
  popup : Option PopupAction
  /-- The menu button accepted as pressed, for which `millis_last_menu_btn_press_` was
  set and whose action, if there is one, is invoked. -/
  pressed : Option Nat
deriving DecidableEq, Repr

/-- Function `ScreenWithMenuButtons::touch`, up to the call
`menu_btn_action_[button].invoke()`, which is its last step before `return true`. -/
def ScreenWithMenuButtons.touch (scr : Screen) (x y : Int) (time : Nat) : MenuTouch :=
  let r := ScreenWithHeader.touch scr x y time
  if r.2.1 then { scr := r.1, consumed := true, popup := r.2.2, pressed := none }
  else
    let scr1 := r.1
    let g := scr1.cls.menuGeometry
    if usub32 time scr1.millis_last_menu_btn_press_ > INTERVAL_MENU_BTN ∧
        x ≥ 480 - TOUCH_BTN_WIDTH then
      let button := ((Int.tdiv (y - g.btn_y_) g.btn_h_) % 256).toNat
      if button < g.btn_count_ then
        { scr := { scr1 with millis_last_menu_btn_press_ := time }, consumed := true,
          popup := none, pressed := some button }
      else { scr := scr1, consumed := true, popup := none, pressed := none }
    else
      { scr := scr1, consumed := decide (x ≥ 480 - TOUCH_BTN_WIDTH), popup := none,
        pressed := none }

/-- Function `ScreenSetup::touch`: after the base class, the icon under the touch selects the
screen to go to. -/
def ScreenSetup.touch (scr : Screen) (x y : Int) (time : Nat) :
    Screen × Bool × Option PopupAction :=
  let r := ScreenWithHeader.touch scr x y time
  if r.2.1 then r
  else if y < 60 ∨ y ≥ 300 then (r.1, false, none)
  else
    match Int.tdiv (y - 60) 120 * 4 + Int.tdiv x 120 with
    | 0 => (r.1, true, some (.gotoScreen .ScreenMain))
    | 1 => (r.1, true, some (.gotoScreen .ScreenSetupFan))
    | 2 => (r.1, true, some (.gotoScreen .ScreenSetupBypass))
    | 3 => (r.1, true, some (.gotoScreen .ScreenSetupAntifreeze))
    | 4 => (r.1, true, some (.gotoScreen .ScreenSetupTime))
    | 5 => (r.1, true, some (.gotoScreen .ScreenSetupProgram))
    | 6 => (r.1, true, some (.gotoScreen .ScreenSetupIPAddress))
    | 7 => (r.1, true, some (.gotoScreen .ScreenSetupFactoryDefaults))
    | _ => (r.1, false, none)

/-- Function `ScreenMain::touch` after `ScreenWithMenuButtons::touch` did not consume the touch:
the start of the touch is noted, and a touch that lasts longer than `CALIBRATION_TIME`
starts the calibration. -/
def ScreenMain.touchOutsideMenu (scr : Screen) (time : Nat) :
    Screen × Bool × Option PopupAction :=
  if scr.touch_start_ = 0 then ({ scr with touch_start_ := time }, false, none)
  else if usub32 time scr.touch_start_ > CALIBRATION_TIME then
    (scr, true, some (.gotoScreen .ScreenCalibration))
  else (scr, false, none)

/-- The virtual call `current_screen_->touch(x, y, time)` made by `TFT::loopTouch` and
`TFT::makeTouch` when `millis()` reads `now`, together with the action it ends with.
The menu actions that are not plain screen switches are given by `act`: the screen
they leave behind and the restart or screen switch they end with. The selection of an
input field by `ScreenWithInput::touch` changes no member kept here. The result also
names the menu button whose action was invoked. -/
def TFT.touch (act : Screen → Nat → Screen × Option PopupAction) (fuel : Nat) (tft : TFT)
    (x y : Int) (time now : Nat) : Option (TFT × Option Nat) :=
  match tft.current_screen_ with
  | none => some (tft, none)
  | some scr =>
    if scr.cls.hasMenuButtons then
      let r := ScreenWithMenuButtons.touch scr x y time
      match r.pressed with
      | some button =>
        match scr.cls.menuAction button with
        | none => some ({ tft with current_screen_ := some r.scr }, none)
        | some (.gotoScreen c) =>
          (TFT.perform fuel { tft with current_screen_ := some r.scr } now
            (some (.gotoScreen c))).map fun t => (t, some button)
        | some .other =>
          (TFT.perform fuel { tft with current_screen_ := some (act r.scr button).1 } now
            (act r.scr button).2).map fun t => (t, some button)
      | none =>
        if r.consumed then
          (TFT.perform fuel { tft with current_screen_ := some r.scr } now r.popup).map
            fun t => (t, none)
        else if scr.cls = .ScreenMain then
          (TFT.perform fuel
            { tft with current_screen_ := some (ScreenMain.touchOutsideMenu r.scr time).1 } now
            (ScreenMain.touchOutsideMenu r.scr time).2.2).map fun t => (t, none)
        else some ({ tft with current_screen_ := some r.scr }, none)
    else if scr.cls = .ScreenSetup then
      (TFT.perform fuel { tft with current_screen_ := some (ScreenSetup.touch scr x y time).1 }
        now (ScreenSetup.touch scr x y time).2.2).map fun t => (t, none)
    else
      (TFT.perform fuel
        { tft with current_screen_ := some (scr.dispatchTouch x y time now).1 } now
        (scr.dispatchTouch x y time now).2.2).map fun t => (t, none)

/-- The touches `evs`, each with its position and time, delivered one after the other,
each when `millis()` reads its time. The result lists the time and the button of every
menu-button action that was invoked, in order. -/
def TFT.touches (act : Screen → Nat → Screen × Option PopupAction) (fuel : Nat) :
    List (Int × Int × Nat) → TFT → Option (TFT × List (Nat × Nat))
  | [], tft => some (tft, [])
  | ev :: evs, tft =>
    match TFT.touch act fuel tft ev.1 ev.2.1 ev.2.2 ev.2.2 with
    | none => none
    | some r =>
      match TFT.touches act fuel evs r.1 with
      | none => none
      | some rs =>
        some (rs.1, match r.2 with
          | some button => (ev.2.2, button) :: rs.2
          | none => rs.2)

theorem CrashRing.filled_reset : CrashRing.resetCrashes.Filled [] := by
  refine ⟨by simp [CrashRing.resetCrashes], by simp [CrashRing.resetCrashes],
    by simp [CrashRing.resetCrashes], ?_⟩
  intro j hj
  simp at hj

theorem CrashRing.filled_store (b : CrashRing) (rs : List CrashReport) (r : CrashReport)
    (h : b.Filled rs) : (b.storeCrash r).Filled (rs ++ [r]) := by
  obtain ⟨hlen, hnext, hcount, hslots⟩ := h
  refine ⟨by simp [CrashRing.storeCrash, hlen], ?_, ?_, ?_⟩
  · simp only [CrashRing.storeCrash, hnext, MaxCrashReportCount, List.length_append,
      List.length_singleton]
    omega
  · simp only [CrashRing.storeCrash, hcount, MaxCrashReportCount, List.length_append,
      List.length_singleton]
    omega
  · intro j hj hj4
    simp only [List.length_append, List.length_singleton] at hj hj4
    simp only [CrashRing.storeCrash, hnext, List.map_append, List.map_cons, List.map_nil]
    by_cases hjl : j = rs.length
    · subst hjl
      rw [List.getElem?_set_self (by rw [hlen]; exact Nat.mod_lt _ (by decide))]
      rw [List.getElem?_append_right (by simp)]
      simp
    · have hjlt : j < rs.length := by omega
      have hne : rs.length % MaxCrashReportCount ≠ j % MaxCrashReportCount := by
        simp only [MaxCrashReportCount] at hj4 ⊢
        omega
      rw [List.getElem?_set_ne hne]
      rw [List.getElem?_append_left (by simpa using hjlt)]
      exact hslots j hjlt (by omega)

theorem CrashRing.filled_storeAll (rs : List CrashReport) :
    ∀ (b : CrashRing) (done : List CrashReport), b.Filled done →
      (b.storeAll rs).Filled (done ++ rs) := by
  induction rs with
  | nil => intro b done h; simpa [CrashRing.storeAll] using h
  | cons r rs ih =>
    intro b done h
    have h1 := CrashRing.filled_store b done r h
    have h2 := ih (b.storeCrash r) (done ++ [r]) h1
    simpa [CrashRing.storeAll] using h2

theorem CrashRing.records_of_filled (b : CrashRing) (rs : List CrashReport)
    (h : b.Filled rs) :
    b.records = (rs.map CrashReport.record).drop (rs.length - MaxCrashReportCount) := by
  obtain ⟨hlen, hnext, hcount, hslots⟩ := h
  apply List.ext_getElem?
  intro i
  simp only [CrashRing.records, hnext, hcount]
  by_cases hi : i < min rs.length MaxCrashReportCount
  · have hj : rs.length - MaxCrashReportCount + i < rs.length := by
      simp only [MaxCrashReportCount] at hi ⊢
      omega
    have hidx : (rs.length % MaxCrashReportCount + MaxCrashReportCount
        - min rs.length MaxCrashReportCount + i) % MaxCrashReportCount
        = (rs.length - MaxCrashReportCount + i) % MaxCrashReportCount := by
      simp only [MaxCrashReportCount] at hi ⊢
      omega
    have hs := hslots (rs.length - MaxCrashReportCount + i) hj (by omega)
    rw [List.getElem?_drop, ← hs]
    rw [List.getElem?_map, List.getElem?_range hi]
    simp only [Option.map_some']
    rw [hidx, List.getD_eq_getElem?_getD]
    have hlt : (rs.length - MaxCrashReportCount + i) % MaxCrashReportCount < b.crashes_.length := by
      rw [hlen]; exact Nat.mod_lt _ (by decide)
    rw [List.getElem?_eq_getElem hlt]
    simp
  · have h1 : ((List.range (min rs.length MaxCrashReportCount)).map fun i =>
        b.crashes_.getD ((rs.length % MaxCrashReportCount + MaxCrashReportCount
          - min rs.length MaxCrashReportCount + i) % MaxCrashReportCount) default)[i]? = none := by
      apply List.getElem?_eq_none
      simp only [List.length_map, List.length_range]
      omega
    have h2 : ((rs.map CrashReport.record).drop (rs.length - MaxCrashReportCount))[i]? = none := by
      apply List.getElem?_eq_none
      simp only [List.length_drop, List.length_map]
      simp only [MaxCrashReportCount] at hi ⊢
      omega
    rw [h1, h2]

/-- C1: a crash ring buffer of capacity `MaxCrashReportCount = 4` that received five
reports from empty holds the records of the last four, in insertion order, the
first one being discarded (its slot holds the fifth record); in general after any sequence of `storeCrash` calls it
holds the last `min n 4` records in insertion order, so that every call stores its
record (it is the newest record afterwards) whatever the fill state. -/
theorem CrashRing.storeCrash_fifo :
    (∀ r0 r1 r2 r3 r4 : CrashReport,
      (CrashRing.resetCrashes.storeAll [r0, r1, r2, r3, r4]).records
        = [r1.record, r2.record, r3.record, r4.record] ∧
      (CrashRing.resetCrashes.storeAll [r0, r1, r2, r3, r4]).crashes_
        = [r4.record, r1.record, r2.record, r3.record]) ∧
    (∀ rs : List CrashReport,
      (CrashRing.resetCrashes.storeAll rs).records
        = (rs.map CrashReport.record).drop (rs.length - MaxCrashReportCount)) ∧
    (∀ (rs : List CrashReport) (r : CrashReport),
      ((CrashRing.resetCrashes.storeAll rs).storeCrash r).records.getLast? = some r.record ∧
      ((CrashRing.resetCrashes.storeAll rs).storeCrash r).hasCrash = true) := by
  have gen : ∀ rs : List CrashReport,
      (CrashRing.resetCrashes.storeAll rs).records
        = (rs.map CrashReport.record).drop (rs.length - MaxCrashReportCount) := by
    intro rs
    have h := CrashRing.filled_storeAll rs CrashRing.resetCrashes [] CrashRing.filled_reset
    simpa using CrashRing.records_of_filled _ _ h
  refine ⟨?_, gen, ?_⟩
  · intro r0 r1 r2 r3 r4
    refine ⟨?_, ?_⟩
    · rw [gen]
      simp [MaxCrashReportCount]
    · simp [CrashRing.storeAll, CrashRing.storeCrash, CrashRing.resetCrashes,
        MaxCrashReportCount, List.replicate]
  · intro rs r
    have hf := CrashRing.filled_store _ _ r
      (CrashRing.filled_storeAll rs CrashRing.resetCrashes [] CrashRing.filled_reset)
    simp only [List.nil_append] at hf
    constructor
    · rw [CrashRing.records_of_filled _ _ hf]
      simp only [List.map_append, List.map_cons, List.map_nil, List.length_append,
        List.length_singleton]
      rw [List.drop_append_of_le_length (by simp [MaxCrashReportCount])]
      simp
    · obtain ⟨_, _, hcount, _⟩ := hf
      simp [CrashRing.hasCrash, hcount, MaxCrashReportCount]

/-! ### Timing statistics -/

theorem TaskTimingStats.count_recordAll (ds : List Nat) :
    ∀ s : TaskTimingStats, (s.recordAll ds).count = s.count + ds.length := by
  induction ds with
  | nil => intro s; simp [TaskTimingStats.recordAll]
  | cons d ds ih =>
    intro s
    have h := ih (s.record d)
    simp only [TaskTimingStats.recordAll, List.foldl_cons, List.length_cons] at h ⊢
    rw [h]
    simp only [TaskTimingStats.record]
    omega

/-- The sum of the samples lies between `count * min` and `count * max`. -/
theorem TaskTimingStats.bounds_record (s : TaskTimingStats) (d : Nat)
    (h : s.count * s.min ≤ s.sum ∧ s.sum ≤ s.count * s.max) :
    (s.record d).count * (s.record d).min ≤ (s.record d).sum ∧
    (s.record d).sum ≤ (s.record d).count * (s.record d).max := by
  obtain ⟨hlo, hhi⟩ := h
  by_cases h0 : s.count = 0
  · simp only [h0, Nat.zero_mul, Nat.le_zero_eq] at hhi
    simp [TaskTimingStats.record, h0, hhi]
  · simp only [TaskTimingStats.record, h0, if_false]
    have hmin : s.count * Nat.min s.min d ≤ s.count * s.min :=
      Nat.mul_le_mul_left _ (Nat.min_le_left _ _)
    have hmax : s.count * s.max ≤ s.count * Nat.max s.max d :=
      Nat.mul_le_mul_left _ (Nat.le_max_left _ _)
    have hmin2 : Nat.min s.min d ≤ d := Nat.min_le_right _ _
    have hmax2 : d ≤ Nat.max s.max d := Nat.le_max_right _ _
    constructor
    · rw [Nat.add_mul, Nat.one_mul]; omega
    · rw [Nat.add_mul, Nat.one_mul]; omega

theorem TaskTimingStats.bounds_recordAll (ds : List Nat) :
    ∀ s : TaskTimingStats, (s.count * s.min ≤ s.sum ∧ s.sum ≤ s.count * s.max) →
      ((s.recordAll ds).count * (s.recordAll ds).min ≤ (s.recordAll ds).sum ∧
       (s.recordAll ds).sum ≤ (s.recordAll ds).count * (s.recordAll ds).max) := by
  induction ds with
  | nil => intro s h; simpa [TaskTimingStats.recordAll] using h
  | cons d ds ih =>
    intro s h
    have h2 := ih (s.record d) (TaskTimingStats.bounds_record s d h)
    simpa [TaskTimingStats.recordAll] using h2

/-- C3: after `reset()` (or construction) and `N` calls of `record`, by whichever of
the tasks sharing the object, the sample count is `N`; with at least one sample
`min <= average <= max`; and one `record(d)` after `reset()` gives `min = max = d`. -/
theorem TaskTimingStats.count_and_bounds :
    (∀ (s : TaskTimingStats) (ds : List Nat), (s.reset.recordAll ds).count = ds.length) ∧
    (∀ (s : TaskTimingStats) (d : Nat) (ds : List Nat),
      0 < (s.reset.recordAll (d :: ds)).count ∧
      (s.reset.recordAll (d :: ds)).min ≤ (s.reset.recordAll (d :: ds)).average ∧
      (s.reset.recordAll (d :: ds)).average ≤ (s.reset.recordAll (d :: ds)).max) ∧
    (∀ (s : TaskTimingStats) (d : Nat),
      s.reset.count = 0 ∧ (s.reset.record d).count = 1 ∧
      (s.reset.record d).min = d ∧ (s.reset.record d).max = d) := by
  refine ⟨?_, ?_, ?_⟩
  · intro s ds
    rw [TaskTimingStats.count_recordAll]
    simp [TaskTimingStats.reset]
  · intro s d ds
    have hc : (s.reset.recordAll (d :: ds)).count = ds.length + 1 := by
      rw [TaskTimingStats.count_recordAll]
      simp [TaskTimingStats.reset]
    have hb := TaskTimingStats.bounds_recordAll (d :: ds) s.reset
      (by simp [TaskTimingStats.reset])
    have hpos : 0 < (s.reset.recordAll (d :: ds)).count := by omega
    refine ⟨hpos, ?_, ?_⟩
    · simp only [TaskTimingStats.average, Nat.pos_iff_ne_zero.mp hpos, if_false]
      rw [Nat.le_div_iff_mul_le hpos, Nat.mul_comm]
      exact hb.1
    · simp only [TaskTimingStats.average, Nat.pos_iff_ne_zero.mp hpos, if_false]
      apply Nat.div_le_of_le_mul
      exact hb.2
  · intro s d
    simp [TaskTimingStats.reset, TaskTimingStats.record]

/-! ### Timed tasks -/

theorem Scheduler.visits_cancelled (vs : List Scheduler.Visit) :
    ∀ t : TimedTask, t.enabled = false → Scheduler.visits t vs = (t, []) := by
  induction vs with
  | nil => intro t _; rfl
  | cons v vs ih =>
    intro t h
    have hv : Scheduler.visit t v = (t, false) := by
      simp [Scheduler.visit, TimedTask.isDue, h]
    simp only [Scheduler.visits, hv, ih t h]
    simp

/-- C4: a cancelled task is executed in no later iteration, whatever the times of
the iterations, and stays as it is; `runOnce` and `runRepeated` called at time `now`
after that (also after further iterations) enable it with the deadline `now + delay`
resp. `now + period`, whatever deadline the task had when it was cancelled. -/
theorem Scheduler.cancel_stops_until_rescheduled :
    ∀ (t : TimedTask) (vs : List Scheduler.Visit),
      (Scheduler.visits t.cancel vs).2 = [] ∧
      (Scheduler.visits t.cancel vs).1 = t.cancel ∧
      (∀ now delay : Nat,
        ((Scheduler.visits t.cancel vs).1.runOnce now delay).next_deadline = now + delay ∧
        ((Scheduler.visits t.cancel vs).1.runOnce now delay).enabled = true) ∧
      (∀ now period : Nat,
        ((Scheduler.visits t.cancel vs).1.runRepeated now period).next_deadline = now + period ∧
        ((Scheduler.visits t.cancel vs).1.runRepeated now period).enabled = true) := by
  intro t vs
  have h := Scheduler.visits_cancelled vs t.cancel (by simp [TimedTask.cancel])
  rw [h]
  refine ⟨rfl, rfl, ?_, ?_⟩
  · intro now delay
    simp [TimedTask.runOnce]
  · intro now period
    simp [TimedTask.runRepeated, TimedTask.isRunning, TimedTask.cancel]

/-- Calls that re-arm a running task with `runRepeated(p)` leave it enabled with the
period `p`. -/
theorem TimedTask.calls_rearm (p : Nat) (calls : List Scheduler.SelfCall) :
    ∀ t : TimedTask, t.enabled = true → t.period = some p →
      (calls.all fun c =>
        match c with
        | .runRepeated _ q => decide (q = p)
        | _ => false) = true →
      (calls.foldl TimedTask.call t).enabled = true ∧
      (calls.foldl TimedTask.call t).period = some p := by
  induction calls with
  | nil => intro t he hp _; exact ⟨he, hp⟩
  | cons c cs ih =>
    intro t he hp hall
    simp only [List.all_cons, Bool.and_eq_true] at hall
    cases c with
    | runOnce now delay => simp at hall
    | cancel => simp at hall
    | runRepeated now q =>
      have hq : q = p := by simpa using hall.1
      subst hq
      exact ih (t.runRepeated now q) rfl rfl hall.2

theorem Scheduler.visit_on_time (t : TimedTask) (p : Nat) (v : Scheduler.Visit)
    (he : t.enabled = true) (hp : t.period = some p) (hdue : t.isDue v.now = true)
    (hre : v.rearmsWith p = true)
    (hfin : Scheduler.isPast (t.next_deadline + p) v.finish = false) :
    (Scheduler.visit t v).2 = true ∧
    (Scheduler.visit t v).1.next_deadline = t.next_deadline + p ∧
    (Scheduler.visit t v).1.enabled = true ∧
    (Scheduler.visit t v).1.period = some p := by
  obtain ⟨h1, h2⟩ := TimedTask.calls_rearm p v.calls t he hp hre
  simp only [Scheduler.visit, hdue, if_true, Scheduler.fired, hp, h2, hfin]
  simp [h1]

theorem Scheduler.visits_on_time (p : Nat) (vs : List Scheduler.Visit) :
    ∀ t : TimedTask, t.enabled = true → t.period = some p →
      (vs.all fun v => v.rearmsWith p) = true →
      Scheduler.neverLate p t vs = true →
      (Scheduler.visits t vs).2
        = (List.range (Scheduler.visits t vs).2.length).map (fun k => t.next_deadline + k * p) ∧
      (Scheduler.visits t vs).1.next_deadline
        = t.next_deadline + (Scheduler.visits t vs).2.length * p ∧
      (Scheduler.visits t vs).1.enabled = true ∧
      (Scheduler.visits t vs).1.period = some p := by
  induction vs with
  | nil => intro t he hp _ _; simp [Scheduler.visits, he, hp]
  | cons v vs ih =>
    intro t he hp hre hnl
    simp only [List.all_cons, Bool.and_eq_true] at hre
    simp only [Scheduler.neverLate, Bool.and_eq_true, Bool.or_eq_true, Bool.not_eq_true'] at hnl
    obtain ⟨hfin, hrest⟩ := hnl
    by_cases hdue : t.isDue v.now = true
    · have hfin2 : Scheduler.isPast (t.next_deadline + p) v.finish = false := by
        rcases hfin with h | h
        · rw [hdue] at h; cases h
        · exact h
      obtain ⟨hv1, hv2, hv3, hv4⟩ := Scheduler.visit_on_time t p v he hp hdue hre.1 hfin2
      obtain ⟨h1, h2, h3, h4⟩ := ih (Scheduler.visit t v).1 hv3 hv4 hre.2 hrest
      simp only [Scheduler.visits, hv1, if_true]
      refine ⟨?_, ?_, h3, h4⟩
      · rw [List.length_cons, List.range_succ_eq_map, List.map_cons, List.map_map]
        simp only [Nat.zero_mul, Nat.add_zero]
        congr 1
        rw [h1]
        simp only [List.length_map, List.length_range]
        apply List.map_congr_left
        intro k _
        simp only [Function.comp, Nat.succ_eq_add_one, Nat.add_mul, Nat.one_mul, hv2]
        omega
      · rw [h2, List.length_cons, Nat.add_mul, Nat.one_mul, hv2]
        omega
    · have hdue2 : t.isDue v.now = false := by simpa using hdue
      have hv : Scheduler.visit t v = (t, false) := by
        simp [Scheduler.visit, hdue2]
      rw [hv] at hrest
      have := ih t he hp hre.2 hrest
      simp only [Scheduler.visits, hv]
      simpa using this

/-- C2: a periodic task with period `p` that is never late, whose operation leaves the
task alone or re-arms it with `runRepeated(p)` while it runs (as the display update
does on every run), is executed at deadlines that differ by exactly `p`: each
execution advances the deadline to the previous deadline plus `p`, not twice and not to
the current time plus `p`, whatever the time `now` of the iteration, the time of the
call and the time `finish` at which the operation returned. Times are compared through
their unsigned difference modulo 2^32. -/
theorem Scheduler.periodic_drift_free (t : TimedTask) (p : Nat) (vs : List Scheduler.Visit)
    (he : t.enabled = true) (hp : t.period = some p)
    (hre : (vs.all fun v => v.rearmsWith p) = true)
    (hnl : Scheduler.neverLate p t vs = true) :
    (Scheduler.visits t vs).2
      = (List.range (Scheduler.visits t vs).2.length).map (fun k => t.next_deadline + k * p) ∧
    (Scheduler.visits t vs).1.next_deadline
      = t.next_deadline + (Scheduler.visits t vs).2.length * p ∧
    (∀ v : Scheduler.Visit, t.isDue v.now = true → v.rearmsWith p = true →
      Scheduler.isPast (t.next_deadline + p) v.finish = false →
      (Scheduler.visit t v).2 = true ∧
      (Scheduler.visit t v).1.next_deadline = t.next_deadline + p) ∧
    (∀ now finish callNow : Nat, t.isDue now = true →
      Scheduler.isPast (t.next_deadline + p) finish = false →
      (Scheduler.visit t ⟨now, [], finish⟩).1.next_deadline = t.next_deadline + p ∧
      (Scheduler.visit t ⟨now, [.runRepeated callNow p], finish⟩).1.next_deadline
        = t.next_deadline + p) := by
  obtain ⟨h1, h2, _, _⟩ := Scheduler.visits_on_time p vs t he hp hre hnl
  refine ⟨h1, h2, ?_, ?_⟩
  · intro v hdue hrev hfin
    obtain ⟨hv1, hv2, _, _⟩ := Scheduler.visit_on_time t p v he hp hdue hrev hfin
    exact ⟨hv1, hv2⟩
  · intro now finish callNow hdue hfin
    exact ⟨(Scheduler.visit_on_time t p ⟨now, [], finish⟩ he hp hdue rfl hfin).2.1,
      (Scheduler.visit_on_time t p ⟨now, [.runRepeated callNow p], finish⟩ he hp hdue
        (by simp [Scheduler.Visit.rearmsWith]) hfin).2.1⟩

/-- The conclusion at a task with period 1000 first due at 1000, visited every 10
time units or so with operations that take 5 to 9 units and re-arm the task: it is
executed at the deadlines 1000, 2000 and 3000 and is next due at 4000; and at a task
due 296 units before the counter wraps, which is executed at deadlines 1000 apart
across the wrap. -/
theorem Scheduler.periodic_drift_free_witness :
    (Scheduler.sampleVisits.all fun v => v.rearmsWith 1000) = true ∧
    Scheduler.neverLate 1000 Scheduler.sampleTask Scheduler.sampleVisits = true ∧
    (Scheduler.visits Scheduler.sampleTask Scheduler.sampleVisits).2 = [1000, 2000, 3000] ∧
    (Scheduler.visits Scheduler.sampleTask Scheduler.sampleVisits).1.next_deadline = 4000 ∧
    (Scheduler.visits Scheduler.wrappingTask Scheduler.wrappingVisits).2
      = [4294967000, 4294968000, 4294969000] ∧
    (Scheduler.visits Scheduler.wrappingTask Scheduler.wrappingVisits).1.next_deadline
      = 4294970000 := by
  have h := Scheduler.periodic_drift_free Scheduler.sampleTask 1000 Scheduler.sampleVisits
    rfl rfl (by decide) (by decide)
  refine ⟨by decide, by decide, ?_, ?_, by decide, by decide⟩
  · rw [h.1]; decide
  · rw [h.2.1]; decide

/-! ### Network defaults -/

theorem IPAddressLiteral.byte_and_lt (a b : Nat) (ha : a < 256) : a &&& b < 256 :=
  Nat.lt_of_le_of_lt Nat.and_le_left ha

/-- C7, as stated, fails: for the address 192.168.20.201 with the mask
255.255.255.128 the default gateway is 192.168.20.129, which is not the network
address 192.168.20.128 with 1 as its last element. -/
theorem KWLDefaultConfig.gateway_last_not_one :
    KWLDefaultConfig.NetworkGateway (IPAddressLiteral.lit 192 168 20 201)
        (IPAddressLiteral.lit 255 255 255 128)
      = IPAddressLiteral.lit 192 168 20 129 ∧
    KWLDefaultConfig.NetworkGateway (IPAddressLiteral.lit 192 168 20 201)
        (IPAddressLiteral.lit 255 255 255 128)
      ≠ IPAddressLiteral.networkWithLastOne (IPAddressLiteral.lit 192 168 20 201)
        (IPAddressLiteral.lit 255 255 255 128) := by
  constructor <;> decide

/-- The elements of the default gateway as the code computes it from an address and a
mask. -/
theorem KWLDefaultConfig.NetworkGateway_elements (a b c d m0 m1 m2 m3 : Nat) :
    KWLDefaultConfig.NetworkGateway (IPAddressLiteral.lit a b c d)
        (IPAddressLiteral.lit m0 m1 m2 m3)
      = { ip0 := a % 256 &&& m0 % 256, ip1 := b % 256 &&& m1 % 256,
          ip2 := c % 256 &&& m2 % 256, ip3 := (d % 256 &&& m3 % 256) ||| 1 } := by
  have h0 := IPAddressLiteral.byte_and_lt (a % 256) (m0 % 256) (Nat.mod_lt _ (by decide))
  have h1 := IPAddressLiteral.byte_and_lt (b % 256) (m1 % 256) (Nat.mod_lt _ (by decide))
  have h2 := IPAddressLiteral.byte_and_lt (c % 256) (m2 % 256) (Nat.mod_lt _ (by decide))
  have h3 := IPAddressLiteral.byte_and_lt (d % 256) (m3 % 256) (Nat.mod_lt _ (by decide))
  have h4 : (d % 256 &&& m3 % 256) ||| 1 < 256 :=
    Nat.or_lt_two_pow (n := 8) h3 (by decide)
  simp only [KWLDefaultConfig.NetworkGateway, IPAddressLiteral.and, IPAddressLiteral.or,
    IPAddressLiteral.lit, Nat.mod_eq_of_lt h0, Nat.mod_eq_of_lt h1, Nat.mod_eq_of_lt h2,
    Nat.mod_eq_of_lt h3, Nat.zero_mod, Nat.or_zero, Nat.mod_eq_of_lt h4]

/-- C7, amended: for every address and every mask whose last element is 0, the default
gateway is the network address (IP AND mask, element by element) with 1 as its last
element; for the shipped defaults 192.168.20.201 / 255.255.255.0 it is 192.168.20.1. -/
theorem KWLDefaultConfig.gateway_is_network_with_last_one :
    (∀ a b c d m0 m1 m2 : Nat,
      KWLDefaultConfig.NetworkGateway (IPAddressLiteral.lit a b c d)
          (IPAddressLiteral.lit m0 m1 m2 0)
        = IPAddressLiteral.networkWithLastOne (IPAddressLiteral.lit a b c d)
          (IPAddressLiteral.lit m0 m1 m2 0)) ∧
    KWLDefaultConfig.NetworkGateway KWLDefaultConfig.NetworkIPAddress
        KWLDefaultConfig.NetworkSubnetMask = IPAddressLiteral.lit 192 168 20 1 := by
  refine ⟨?_, by decide⟩
  intro a b c d m0 m1 m2
  rw [KWLDefaultConfig.NetworkGateway_elements]
  have h0 := IPAddressLiteral.byte_and_lt (a % 256) (m0 % 256) (Nat.mod_lt _ (by decide))
  have h1 := IPAddressLiteral.byte_and_lt (b % 256) (m1 % 256) (Nat.mod_lt _ (by decide))
  have h2 := IPAddressLiteral.byte_and_lt (c % 256) (m2 % 256) (Nat.mod_lt _ (by decide))
  simp [IPAddressLiteral.networkWithLastOne, IPAddressLiteral.and, IPAddressLiteral.lit,
    Nat.mod_eq_of_lt h0, Nat.mod_eq_of_lt h1, Nat.mod_eq_of_lt h2]

/-! ### Crash data -/

/-- C8: the crash address is kept in 18 bits and the stack pointer in 14 bits, which
together fill one 32-bit word: for `pc < 2^18` and `sp < 2^14` the record holds `pc`
and `sp`, also when read back from the shared word, and for every `pc` and `sp` it
holds them modulo `2^18` resp. `2^14`. -/
theorem CrashData.fields_keep_pc_sp (millis real_time pc sp : Nat)
    (hpc : pc < 2 ^ 18) (hsp : sp < 2 ^ 14) :
    (CrashData.assign millis real_time pc sp).crash_addr = pc ∧
    (CrashData.assign millis real_time pc sp).crash_sp = sp ∧
    CrashData.wordAddr (CrashData.assign millis real_time pc sp).word = pc ∧
    CrashData.wordSp (CrashData.assign millis real_time pc sp).word = sp ∧
    CRASH_ADDR_BITS + CRASH_SP_BITS = 32 ∧
    (∀ pc2 sp2 : Nat,
      (CrashData.assign millis real_time pc2 sp2).crash_addr = pc2 % 2 ^ 18 ∧
      (CrashData.assign millis real_time pc2 sp2).crash_sp = sp2 % 2 ^ 14 ∧
      (CrashData.assign millis real_time pc2 sp2).word < 2 ^ 32 ∧
      CrashData.wordAddr (CrashData.assign millis real_time pc2 sp2).word = pc2 % 2 ^ 18 ∧
      CrashData.wordSp (CrashData.assign millis real_time pc2 sp2).word = sp2 % 2 ^ 14) := by
  have gen : ∀ pc2 sp2 : Nat,
      (CrashData.assign millis real_time pc2 sp2).crash_addr = pc2 % 2 ^ 18 ∧
      (CrashData.assign millis real_time pc2 sp2).crash_sp = sp2 % 2 ^ 14 ∧
      (CrashData.assign millis real_time pc2 sp2).word < 2 ^ 32 ∧
      CrashData.wordAddr (CrashData.assign millis real_time pc2 sp2).word = pc2 % 2 ^ 18 ∧
      CrashData.wordSp (CrashData.assign millis real_time pc2 sp2).word = sp2 % 2 ^ 14 := by
    intro pc2 sp2
    simp only [CrashData.assign, CrashData.word, CrashData.wordAddr, CrashData.wordSp,
      CRASH_ADDR_BITS, CRASH_SP_BITS]
    norm_num
    omega
  obtain ⟨g1, g2, _, g4, g5⟩ := gen pc sp
  refine ⟨?_, ?_, ?_, ?_, rfl, gen⟩
  · rw [g1]; exact Nat.mod_eq_of_lt hpc
  · rw [g2]; exact Nat.mod_eq_of_lt hsp
  · rw [g4]; exact Nat.mod_eq_of_lt hpc
  · rw [g5]; exact Nat.mod_eq_of_lt hsp

/-- The conclusion for a crash at address `0x1F2E3` with the stack pointer `0x21FF`,
and at the out-of-range values `0x5F2E3` and `0x61FF`, which lose their upper bits. -/
theorem CrashData.fields_keep_pc_sp_witness :
    (127459 < 2 ^ 18 ∧ 8703 < 2 ^ 14) ∧
    (CrashData.assign 5000 0 127459 8703).crash_addr = 127459 ∧
    (CrashData.assign 5000 0 127459 8703).crash_sp = 8703 ∧
    (CrashData.assign 5000 0 389603 25087).crash_addr = 127459 ∧
    (CrashData.assign 5000 0 389603 25087).crash_sp = 8703 := by
  have h := CrashData.fields_keep_pc_sp 5000 0 127459 8703 (by decide) (by decide)
  refine ⟨⟨by decide, by decide⟩, h.1, h.2.1, ?_, ?_⟩
  · rw [(h.2.2.2.2.2 389603 25087).1]; decide
  · rw [(h.2.2.2.2.2 389603 25087).2.1]; decide

/-! ### Display -/

theorem usub32_self_mod (now : Nat) : usub32 now (now % U32) = 0 := by
  simp only [usub32, U32]
  omega

theorem usub32_add (s e : Nat) (hs : s < U32) (he : e < U32) : usub32 ((s + e) % U32) s = e := by
  simp only [usub32, U32] at *
  omega

theorem TFT.set_current_screen_eq (tft : TFT) (scr : Screen)
    (hscr : tft.current_screen_ = some scr) :
    { tft with current_screen_ := some scr } = tft := by
  cases tft
  simp only at hscr
  subst hscr
  rfl

theorem Screen.dispatchUpdate_mainOrSetup (scr : Screen) (now id : Nat)
    (hcls : scr.cls.isMainOrSetup = true) :
    scr.dispatchUpdate now id = ScreenWithHeader.update scr now id := by
  cases hc : scr.cls <;> simp [Screen.dispatchUpdate, hc, ScreenClass.isMainOrSetup] at hcls ⊢

/-- An update of a main or setup screen without popup whose `Screen::update` finds no
timeout to act on changes nothing. -/
theorem TFT.displayUpdate_idle (fuel now : Nat) (tft : TFT) (scr : Screen)
    (hscr : tft.current_screen_ = some scr) (hcls : scr.cls.isMainOrSetup = true)
    (hpop : scr.popup_action_ = none)
    (hup : scr.update now tft.current_screen_id_ = none) :
    TFT.displayUpdate (fuel + 1) now tft = some tft := by
  simp only [TFT.displayUpdate, hscr, Screen.dispatchUpdate_mainOrSetup scr now _ hcls,
    ScreenWithHeader.update, hpop, hup]
  rw [TFT.set_current_screen_eq tft scr hscr]

theorem TFT.displayUpdates_idle (fuel : Nat) (ts : List Nat) (tft : TFT) (scr : Screen)
    (hscr : tft.current_screen_ = some scr) (hcls : scr.cls.isMainOrSetup = true)
    (hpop : scr.popup_action_ = none)
    (hup : ∀ u ∈ ts, scr.update u tft.current_screen_id_ = none) :
    TFT.displayUpdates (fuel + 1) ts tft = some tft := by
  induction ts with
  | nil => rfl
  | cons u ts ih =>
    have h1 := TFT.displayUpdate_idle fuel u tft scr hscr hcls hpop (hup u (by simp))
    simp only [TFT.displayUpdates, h1, Option.some_bind]
    exact ih (fun v hv => hup v (by simp [hv]))

theorem TFT.displayUpdates_append (fuel : Nat) (ts1 ts2 : List Nat) :
    ∀ tft : TFT, TFT.displayUpdates fuel (ts1 ++ ts2) tft
      = (TFT.displayUpdates fuel ts1 tft).bind (TFT.displayUpdates fuel ts2) := by
  induction ts1 with
  | nil => intro tft; simp [TFT.displayUpdates]
  | cons u ts ih =>
    intro tft
    simp only [List.cons_append, TFT.displayUpdates]
    cases h : TFT.displayUpdate fuel u tft with
    | none => simp
    | some t => simp [ih t]

/-- The state after `gotoScreen<ScreenMain>` from another screen. -/
theorem TFT.displayUpdate_to_main (fuel now : Nat) (tft : TFT) (scr : Screen)
    (hscr : tft.current_screen_ = some scr) (hcls : scr.cls.isMainOrSetup = true)
    (hpop : scr.popup_action_ = none)
    (hup : scr.update now tft.current_screen_id_ = some (.gotoScreen .ScreenMain))
    (hid : tft.current_screen_id_ ≠ ScreenClass.ScreenMain.ID) :
    TFT.displayUpdate (fuel + 2) now tft
      = some { tft with current_screen_ := some (Screen.construct .ScreenMain now)
                        current_screen_id_ := ScreenClass.ScreenMain.ID
                        touch_in_progress_ := false } := by
  have hb : (Screen.construct .ScreenMain now).updateBranch now = .noTimeout := by
    simp [Screen.updateBranch, Screen.construct, usub32_self_mod, INTERVAL_DISPLAY_TIMEOUT,
      INTERVAL_TOUCH_TIMEOUT]
  rw [TFT.displayUpdate]
  simp only [hscr, Screen.dispatchUpdate_mainOrSetup scr now _ hcls,
    ScreenWithHeader.update, hpop, hup]
  rw [TFT.set_current_screen_eq tft scr hscr]
  simp only [TFT.switchScreen, hid, if_false, TFT.initScreen, Screen.construct]
  apply TFT.displayUpdate_idle fuel now _ (Screen.construct .ScreenMain now) rfl rfl rfl
  simp [Screen.update, hb]

/-- The state after `gotoScreen<ScreenSaver>` from a main or setup screen. -/
theorem TFT.displayUpdate_to_saver (fuel now : Nat) (tft : TFT) (scr : Screen)
    (hscr : tft.current_screen_ = some scr) (hcls : scr.cls.isMainOrSetup = true)
    (hpop : scr.popup_action_ = none)
    (hup : scr.update now tft.current_screen_id_ = some (.gotoScreen .ScreenSaver))
    (hid : tft.current_screen_id_ ≠ ScreenClass.ScreenSaver.ID) :
    TFT.displayUpdate (fuel + 2) now tft
      = some { tft with
          current_screen_ := some
            { Screen.construct .ScreenSaver now with millis_screen_blank_ := now % U32 }
          current_screen_id_ := ScreenClass.ScreenSaver.ID
          touch_in_progress_ := false } := by
  rw [TFT.displayUpdate]
  simp only [hscr, Screen.dispatchUpdate_mainOrSetup scr now _ hcls,
    ScreenWithHeader.update, hpop, hup]
  rw [TFT.set_current_screen_eq tft scr hscr]
  simp only [TFT.switchScreen, hid, if_false, TFT.initScreen, Screen.construct]
  simp [TFT.displayUpdate, Screen.dispatchUpdate, ScreenSaver.update, usub32_self_mod]

theorem ScreenClass.ID_eq_main (c : ScreenClass) (h : c.ID = ScreenClass.ScreenMain.ID) :
    c = .ScreenMain := by
  cases c <;> simp [ScreenClass.ID] at h ⊢

/-- On the main screen without popup: updates within the display timeout change
nothing, the first update after it switches to the screen saver. -/
theorem TFT.main_then_saver (fuel : Nat) (tft : TFT) (scr : Screen) (ts : List Nat) (u : Nat)
    (hscr : tft.current_screen_ = some scr) (hid : tft.current_screen_id_ = ScreenClass.ScreenMain.ID)
    (hcls : scr.cls = .ScreenMain) (hpop : scr.popup_action_ = none)
    (h2 : ∀ v ∈ ts, usub32 v scr.last_input_time_ ≤ INTERVAL_DISPLAY_TIMEOUT)
    (hu : INTERVAL_DISPLAY_TIMEOUT < usub32 u scr.last_input_time_) :
    TFT.displayUpdates (fuel + 2) ts tft = some tft ∧
    TFT.displayUpdates (fuel + 2) (ts ++ [u]) tft
      = some { tft with
          current_screen_ := some
            { Screen.construct .ScreenSaver u with millis_screen_blank_ := u % U32 }
          current_screen_id_ := ScreenClass.ScreenSaver.ID
          touch_in_progress_ := false } := by
  have hms : scr.cls.isMainOrSetup = true := by rw [hcls]; rfl
  have hidle : TFT.displayUpdates (fuel + 2) ts tft = some tft := by
    apply TFT.displayUpdates_idle (fuel + 1) ts tft scr hscr hms hpop
    intro v hv
    have := h2 v hv
    simp only [Screen.update, Screen.updateBranch, hid]
    by_cases h60 : usub32 v scr.last_input_time_ > INTERVAL_TOUCH_TIMEOUT
    · simp [h60, Nat.not_lt.mpr this]
    · simp [h60, Nat.not_lt.mpr this]
  refine ⟨hidle, ?_⟩
  rw [TFT.displayUpdates_append, hidle]
  simp only [Option.some_bind, TFT.displayUpdates]
  rw [TFT.displayUpdate_to_saver fuel u tft scr hscr hms hpop]
  · rfl
  · simp [Screen.update, Screen.updateBranch, hu]
  · rw [hid]; decide

/-- What the code does with periodic display updates and no touch: a main screen
without popup is replaced by the screen saver at the first update more than
`INTERVAL_DISPLAY_TIMEOUT` after its last input; a setup screen first returns to the
main screen, at the first update more than `INTERVAL_TOUCH_TIMEOUT` after its last
input, and the screen saver follows only at the first update more than
`INTERVAL_DISPLAY_TIMEOUT` after that return, because the new main screen starts with
`last_input_time_ = millis()`. -/
theorem TFT.screen_saver_after_display_timeout (fuel : Nat) (tft : TFT) (scr : Screen)
    (ts1 ts2 : List Nat) (u1 u2 : Nat)
    (hscr : tft.current_screen_ = some scr) (hid : tft.current_screen_id_ = scr.cls.ID)
    (hcls : scr.cls.isMainOrSetup = true) (hpop : scr.popup_action_ = none)
    (h1 : ∀ u ∈ ts1, usub32 u scr.last_input_time_ ≤ INTERVAL_TOUCH_TIMEOUT)
    (hu1 : INTERVAL_TOUCH_TIMEOUT < usub32 u1 scr.last_input_time_ ∧
      usub32 u1 scr.last_input_time_ ≤ INTERVAL_DISPLAY_TIMEOUT)
    (h2 : ∀ u ∈ ts2, usub32 u (TFT.timeoutStart scr u1) ≤ INTERVAL_DISPLAY_TIMEOUT)
    (hu2 : INTERVAL_DISPLAY_TIMEOUT < usub32 u2 (TFT.timeoutStart scr u1)) :
    TFT.displayUpdates (fuel + 2) ts1 tft = some tft ∧
    (∃ tft1 scr1, TFT.displayUpdates (fuel + 2) (ts1 ++ [u1] ++ ts2) tft = some tft1 ∧
      tft1.current_screen_id_ = ScreenClass.ScreenMain.ID ∧
      tft1.current_screen_ = some scr1 ∧ scr1.cls = .ScreenMain ∧
      scr1.last_input_time_ = TFT.timeoutStart scr u1) ∧
    (∃ tft2 scr2, TFT.displayUpdates (fuel + 2) (ts1 ++ [u1] ++ ts2 ++ [u2]) tft = some tft2 ∧
      tft2.current_screen_id_ = ScreenClass.ScreenSaver.ID ∧
      tft2.current_screen_ = some scr2 ∧ scr2.cls = .ScreenSaver) := by
  have hidle1 : TFT.displayUpdates (fuel + 2) ts1 tft = some tft := by
    apply TFT.displayUpdates_idle (fuel + 1) ts1 tft scr hscr hcls hpop
    intro v hv
    have h60 := h1 v hv
    have h300 : usub32 v scr.last_input_time_ ≤ INTERVAL_DISPLAY_TIMEOUT :=
      Nat.le_trans h60 (by decide)
    simp [Screen.update, Screen.updateBranch, Nat.not_lt.mpr h60, Nat.not_lt.mpr h300]
  -- the state after the update at `u1`: the main screen is showing
  have hB : ∃ tftB scrB, TFT.displayUpdate (fuel + 2) u1 tft = some tftB ∧
      tftB.current_screen_ = some scrB ∧ tftB.current_screen_id_ = ScreenClass.ScreenMain.ID ∧
      scrB.cls = .ScreenMain ∧ scrB.popup_action_ = none ∧
      scrB.last_input_time_ = TFT.timeoutStart scr u1 := by
    have hbranch : scr.updateBranch u1 = .touchTimeout := by
      simp [Screen.updateBranch, hu1.1, Nat.not_lt.mpr hu1.2]
    by_cases hm : scr.cls = .ScreenMain
    · refine ⟨tft, scr, ?_, hscr, by rw [hid, hm], hm, hpop, by simp [TFT.timeoutStart, hm]⟩
      apply TFT.displayUpdate_idle (fuel + 1) u1 tft scr hscr hcls hpop
      simp [Screen.update, hbranch, hid, hm]
    · have hne : tft.current_screen_id_ ≠ ScreenClass.ScreenMain.ID := by
        rw [hid]
        exact fun h => hm (ScreenClass.ID_eq_main _ h)
      refine ⟨_, Screen.construct .ScreenMain u1,
        TFT.displayUpdate_to_main fuel u1 tft scr hscr hcls hpop ?_ hne, rfl, rfl, rfl, rfl, ?_⟩
      · simp [Screen.update, hbranch, hne]
      · simp [TFT.timeoutStart, hm, Screen.construct]
  obtain ⟨tftB, scrB, hBu, hBscr, hBid, hBcls, hBpop, hBt⟩ := hB
  have hms := TFT.main_then_saver fuel tftB scrB ts2 u2 hBscr hBid hBcls hBpop
    (by rw [hBt]; exact h2) (by rw [hBt]; exact hu2)
  have hpre : TFT.displayUpdates (fuel + 2) (ts1 ++ [u1]) tft = some tftB := by
    rw [TFT.displayUpdates_append, hidle1]
    simp [TFT.displayUpdates, hBu]
  refine ⟨hidle1, ⟨tftB, scrB, ?_, hBid, hBscr, hBcls, hBt⟩, ?_⟩
  · rw [TFT.displayUpdates_append, hpre]
    simpa using hms.1
  · have h3 : TFT.displayUpdates (fuel + 2) (ts1 ++ [u1] ++ ts2 ++ [u2]) tft
        = some { tftB with
            current_screen_ := some
              { Screen.construct .ScreenSaver u2 with millis_screen_blank_ := u2 % U32 }
            current_screen_id_ := ScreenClass.ScreenSaver.ID
            touch_in_progress_ := false } := by
      rw [List.append_assoc (ts1 ++ [u1]), TFT.displayUpdates_append, hpre]
      simpa using hms.2
    exact ⟨_, _, h3, rfl, rfl, rfl⟩

/-- The conclusion on the network setup screen last touched at time 0, updated every
second: back on the main screen at 61 s, which is still showing at 301 s and at 361 s,
and the screen saver at 362 s. -/
theorem TFT.screen_saver_after_display_timeout_witness :
    TFT.displayUpdates 2 (TFT.everySecond 0 60) (TFT.showing .ScreenSetupIPAddress 0)
      = some (TFT.showing .ScreenSetupIPAddress 0) ∧
    (∃ tft1 scr1, TFT.displayUpdates 2
        (TFT.everySecond 0 60 ++ [61000] ++ TFT.everySecond 61000 300)
        (TFT.showing .ScreenSetupIPAddress 0) = some tft1 ∧
      tft1.current_screen_id_ = ScreenClass.ScreenMain.ID ∧
      tft1.current_screen_ = some scr1 ∧ scr1.cls = .ScreenMain ∧
      scr1.last_input_time_ = 61000) ∧
    (∃ tft2 scr2, TFT.displayUpdates 2
        (TFT.everySecond 0 60 ++ [61000] ++ TFT.everySecond 61000 300 ++ [362000])
        (TFT.showing .ScreenSetupIPAddress 0) = some tft2 ∧
      tft2.current_screen_id_ = ScreenClass.ScreenSaver.ID ∧
      tft2.current_screen_ = some scr2 ∧ scr2.cls = .ScreenSaver) := by
  have hst : TFT.timeoutStart (Screen.construct .ScreenSetupIPAddress 0) 61000 = 61000 := by
    decide
  have hlast : (Screen.construct .ScreenSetupIPAddress 0).last_input_time_ = 0 := rfl
  have hsub : ∀ a b : Nat, a < U32 → b ≤ a → usub32 a b = a - b := by
    intro a b ha hb
    simp only [usub32, U32] at *
    omega
  have h := TFT.screen_saver_after_display_timeout 0 (TFT.showing .ScreenSetupIPAddress 0)
    (Screen.construct .ScreenSetupIPAddress 0) (TFT.everySecond 0 60)
    (TFT.everySecond 61000 300) 61000 362000 rfl rfl rfl rfl
    (by
      intro u hu
      simp only [TFT.everySecond, List.mem_map, List.mem_range] at hu
      obtain ⟨k, hk, rfl⟩ := hu
      rw [hlast, hsub _ _ (by simp only [U32]; omega) (Nat.zero_le _)]
      simp only [INTERVAL_TOUCH_TIMEOUT]
      omega)
    (by rw [hlast]; decide)
    (by
      intro u hu
      simp only [TFT.everySecond, List.mem_map, List.mem_range] at hu
      obtain ⟨k, hk, rfl⟩ := hu
      rw [hst, hsub _ _ (by simp only [U32]; omega) (by omega)]
      simp only [INTERVAL_DISPLAY_TIMEOUT]
      omega)
    (by rw [hst]; decide)
  rw [hst] at h
  exact h

set_option maxRecDepth 1000000 in
/-- C9: the code at the failing input. With the setup screen last touched at time 0 and
display updates every second, the update at 301 s, when nothing has been pressed for
more than `INTERVAL_DISPLAY_TIMEOUT`, leaves the main screen showing, not the screen
saver. -/
theorem TFT.setup_screen_no_saver_at_display_timeout :
    (TFT.displayUpdates 2 (TFT.everySecond 0 301) (TFT.showing .ScreenSetup 0)).map
        (fun t => t.current_screen_id_) = some ScreenClass.ScreenMain.ID ∧
    (TFT.displayUpdates 2 (TFT.everySecond 0 301) (TFT.showing .ScreenSetup 0)).map
        (fun t => t.current_screen_id_) ≠ some ScreenClass.ScreenSaver.ID := by
  decide

/-! ### Timeouts on the unsigned difference -/

/-- C6: the popup timeout of `ScreenWithHeader::update` and the inactivity branches of
`Screen::update` are decided on the unsigned 32-bit difference: with the start time
`s` and `now = (s + e) mod 2^32` the popup times out iff `e > timeout`, the display
timeout branch is taken iff `e > 300000` and an inactivity branch iff `e > 60000`, also
when the counter wrapped between `s` and `now`. -/
theorem ScreenWithHeader.timeouts_on_unsigned_difference (scr : Screen) (tmp : PopupAction)
    (id s e : Nat) (hs : s < U32) (he : e < U32) :
    (ScreenWithHeader.popupTimedOut { scr with millis_popup_show_time_ := s } ((s + e) % U32)
        = true ↔ ScreenWithHeader.popupTimeout scr < e) ∧
    ((ScreenWithHeader.update
        { scr with millis_popup_show_time_ := s, popup_action_ := some tmp }
        ((s + e) % U32) id).1.popup_action_ = none ↔ ScreenWithHeader.popupTimeout scr < e) ∧
    (ScreenWithHeader.update
        { scr with millis_popup_show_time_ := s, popup_action_ := some tmp }
        ((s + e) % U32) id
        = ({ scr with millis_popup_show_time_ := s, popup_action_ := none }, some tmp)
      ↔ ScreenWithHeader.popupTimeout scr < e) ∧
    (Screen.updateBranch { scr with last_input_time_ := s } ((s + e) % U32) = .displayTimeout
      ↔ INTERVAL_DISPLAY_TIMEOUT < e) ∧
    (Screen.updateBranch { scr with last_input_time_ := s } ((s + e) % U32) = .touchTimeout
      ↔ INTERVAL_TOUCH_TIMEOUT < e ∧ e ≤ INTERVAL_DISPLAY_TIMEOUT) ∧
    (Screen.updateBranch { scr with last_input_time_ := s } ((s + e) % U32) ≠ .noTimeout
      ↔ INTERVAL_TOUCH_TIMEOUT < e) := by
  have hd := usub32_add s e hs he
  have hto : ∀ a : Option PopupAction,
      ScreenWithHeader.popupTimeout { scr with millis_popup_show_time_ := s, popup_action_ := a }
        = ScreenWithHeader.popupTimeout scr := fun _ => rfl
  have h1 : ∀ a : Option PopupAction, (ScreenWithHeader.popupTimedOut
      { scr with millis_popup_show_time_ := s, popup_action_ := a } ((s + e) % U32) = true
        ↔ ScreenWithHeader.popupTimeout scr < e) := by
    intro a
    simp only [ScreenWithHeader.popupTimedOut, hd, hto, decide_eq_true_eq, gt_iff_lt]
  refine ⟨h1 scr.popup_action_, ?_, ?_, ?_, ?_, ?_⟩
  · by_cases hlt : ScreenWithHeader.popupTimeout scr < e
    · simp [ScreenWithHeader.update, (h1 (some tmp)).mpr hlt, hlt]
    · have hf : ScreenWithHeader.popupTimedOut
          { scr with millis_popup_show_time_ := s, popup_action_ := some tmp } ((s + e) % U32)
          = false := by
        simpa using (not_congr (h1 (some tmp))).mpr hlt
      simp [ScreenWithHeader.update, hf, hlt]
  · by_cases hlt : ScreenWithHeader.popupTimeout scr < e
    · simp [ScreenWithHeader.update, (h1 (some tmp)).mpr hlt, hlt]
    · have hf : ScreenWithHeader.popupTimedOut
          { scr with millis_popup_show_time_ := s, popup_action_ := some tmp } ((s + e) % U32)
          = false := by
        simpa using (not_congr (h1 (some tmp))).mpr hlt
      simp [ScreenWithHeader.update, hf, hlt]
  · simp only [Screen.updateBranch, hd]
    by_cases h300 : INTERVAL_DISPLAY_TIMEOUT < e
    · simp [h300]
    · by_cases h60 : INTERVAL_TOUCH_TIMEOUT < e <;> simp [h300, h60]
  · simp only [Screen.updateBranch, hd]
    by_cases h300 : INTERVAL_DISPLAY_TIMEOUT < e
    · simp [h300]
    · by_cases h60 : INTERVAL_TOUCH_TIMEOUT < e
      · simp [h300, h60, Nat.le_of_not_lt h300]
      · simp [h300, h60]
  · simp only [Screen.updateBranch, hd]
    by_cases h300 : INTERVAL_DISPLAY_TIMEOUT < e
    · have h60 : INTERVAL_TOUCH_TIMEOUT < e := Nat.lt_trans (by decide) h300
      simp [h300, h60]
    · by_cases h60 : INTERVAL_TOUCH_TIMEOUT < e <;> simp [h300, h60]

/-- The conclusion for a popup shown 296 ms before the millisecond counter wraps: 10001
ms later `millis()` reads 9705, which is numerically less than the start time, and the
popup times out; 10000 ms later it does not. -/
theorem ScreenWithHeader.timeouts_on_unsigned_difference_witness :
    (4294967000 < U32 ∧ 10001 < U32) ∧ (4294967000 + 10001) % U32 = 9705 ∧
    ScreenWithHeader.popupTimedOut
      { Screen.construct .ScreenSetupFan 0 with millis_popup_show_time_ := 4294967000 } 9705
      = true ∧
    ScreenWithHeader.popupTimedOut
      { Screen.construct .ScreenSetupFan 0 with millis_popup_show_time_ := 4294967000 } 9704
      = false := by
  have h := ScreenWithHeader.timeouts_on_unsigned_difference
    (Screen.construct .ScreenSetupFan 0) (.gotoScreen .ScreenSetup) 256 4294967000 10001
    (by decide) (by decide)
  refine ⟨⟨by decide, by decide⟩, by decide, ?_, by decide⟩
  exact h.1.mpr (by decide)

/-! ### Inactivity and touches -/

theorem ScreenWithHeader.touch_last_input_time (scr : Screen) (x y : Int) (time : Nat) :
    (ScreenWithHeader.touch scr x y time).1.last_input_time_ = time := by
  unfold ScreenWithHeader.touch
  simp only [Screen.touch]
  split
  · rfl
  · split
    · split <;> rfl
    · split <;> rfl

/-- C10, as stated, fails in its last sentence: a touch delivered to the calibration
screen before its measurement is complete (here the first touch, stage -1) is consumed
without setting `last_input_time_`: after a touch at time 5000 it still is the
construction time 0. -/
theorem ScreenCalibration.touch_keeps_last_input_time :
    ((Screen.construct .ScreenCalibration 0).dispatchTouch 100 100 5000
        5000).1.last_input_time_ = 0 ∧
    ((Screen.construct .ScreenCalibration 0).dispatchTouch 100 100 5000
        5000).1.last_input_time_ ≠ 5000 ∧
    ((Screen.construct .ScreenCalibration 0).dispatchTouch 100 100 5000 5000).2.1 = true := by
  decide

/-- C10, amended: `Screen::update` at time `now` with
`elapsed = (now - last_input_time_) mod 2^32`: for `60000 < elapsed <= 300000` it
switches to the main screen if that is not the current screen and does not switch if
it is; for `elapsed <= 60000` it never switches. Every touch delivered to a screen sets
`last_input_time_` to the touch time, except on the calibration screen, which does so
from stage 4 on and leaves `last_input_time_` unchanged before. -/
theorem Screen.update_touch_timeout (scr : Screen) (now id : Nat)
    (h1 : INTERVAL_TOUCH_TIMEOUT < usub32 now scr.last_input_time_)
    (h2 : usub32 now scr.last_input_time_ ≤ INTERVAL_DISPLAY_TIMEOUT) :
    (id ≠ ScreenClass.ScreenMain.ID → scr.update now id = some (.gotoScreen .ScreenMain)) ∧
    scr.update now ScreenClass.ScreenMain.ID = none ∧
    (∀ now2 id2 : Nat, usub32 now2 scr.last_input_time_ ≤ INTERVAL_TOUCH_TIMEOUT →
      scr.update now2 id2 = none) ∧
    (∀ time : Nat, (scr.touch time).last_input_time_ = time) ∧
    (∀ (x y : Int) (time now3 : Nat), (scr.cls ≠ .ScreenCalibration ∨ 4 ≤ scr.stage_) →
      (scr.dispatchTouch x y time now3).1.last_input_time_ = time) ∧
    (∀ (x y : Int) (time now3 : Nat), scr.cls = .ScreenCalibration → scr.stage_ < 4 →
      (scr.dispatchTouch x y time now3).1.last_input_time_ = scr.last_input_time_) := by
  have hb : scr.updateBranch now = .touchTimeout := by
    simp [Screen.updateBranch, h1, Nat.not_lt.mpr h2]
  have hsaver : ∀ time : Nat, (ScreenSaver.touch scr time).1.last_input_time_ = time := by
    intro time
    simp only [ScreenSaver.touch, Screen.touch]
    split <;> rfl
  refine ⟨?_, ?_, ?_, fun _ => rfl, ?_, ?_⟩
  · intro hid
    simp [Screen.update, hb, hid]
  · simp [Screen.update, hb]
  · intro now2 id2 h
    have h300 : usub32 now2 scr.last_input_time_ ≤ INTERVAL_DISPLAY_TIMEOUT :=
      Nat.le_trans h (by decide)
    simp [Screen.update, Screen.updateBranch, Nat.not_lt.mpr h, Nat.not_lt.mpr h300]
  · intro x y time now3 hc
    cases hcls : scr.cls <;>
      simp only [Screen.dispatchTouch, hcls, hsaver, ScreenWithHeader.touch_last_input_time]
    rcases hc with hc | hc
    · exact absurd hcls hc
    · simp only [ScreenCalibration.touch, ge_iff_le, hc, if_true]
      exact ScreenWithHeader.touch_last_input_time scr x y time
  · intro x y time now3 hcls h4
    have hn : ¬ 4 ≤ scr.stage_ := by omega
    simp only [Screen.dispatchTouch, hcls, ScreenCalibration.touch, ge_iff_le, hn, if_false]
    split <;> split <;> (try split) <;> (try split) <;> rfl

/-- The conclusion on the fan setup screen last touched at time 1000, updated at time
100000: `Screen::update` asks for the main screen; on the main screen it does not; a
touch at time 100500 sets the input time. -/
theorem Screen.update_touch_timeout_witness :
    (INTERVAL_TOUCH_TIMEOUT < usub32 100000 1000 ∧ usub32 100000 1000 ≤ INTERVAL_DISPLAY_TIMEOUT) ∧
    (Screen.construct .ScreenSetupFan 1000).update 100000 ScreenClass.ScreenSetupFan.ID
      = some (.gotoScreen .ScreenMain) ∧
    (Screen.construct .ScreenSetupFan 1000).update 100000 ScreenClass.ScreenMain.ID = none ∧
    (Screen.construct .ScreenSetupFan 1000).update 61000 ScreenClass.ScreenSetupFan.ID = none ∧
    ((Screen.construct .ScreenSetupFan 1000).dispatchTouch 10 10 100500
      100500).1.last_input_time_ = 100500 := by
  have h := Screen.update_touch_timeout (Screen.construct .ScreenSetupFan 1000) 100000
    ScreenClass.ScreenSetupFan.ID (by decide) (by decide)
  exact ⟨⟨by decide, by decide⟩, h.1 (by decide), h.2.1, h.2.2.1 61000 _ (by decide),
    h.2.2.2.2.1 10 10 100500 100500 (Or.inl (by decide))⟩

/-! ### Restart -/

theorem TFT.switchScreen_device (tft : TFT) (c : ScreenClass) (now : Nat) :
    (tft.switchScreen c now).device = tft.device := by
  unfold TFT.switchScreen TFT.initScreen
  split
  · split
    · rfl
    · split <;> rfl
  · simp only
    split <;> rfl

theorem TFT.displayUpdate_crashes (fuel : Nat) :
    ∀ (now : Nat) (tft tft2 : TFT), TFT.displayUpdate fuel now tft = some tft2 →
      tft2.device.crashes_ = tft.device.crashes_ := by
  induction fuel with
  | zero => intro now tft tft2 h; simp [TFT.displayUpdate] at h
  | succ fuel ih =>
    intro now tft tft2 h
    rw [TFT.displayUpdate] at h
    split at h
    · cases h; rfl
    · rename_i scr hscr
      simp only at h
      split at h
      · cases h; rfl
      · cases h; rfl
      · have := ih _ _ _ h
        rw [this, TFT.switchScreen_device]

theorem TFT.perform_crashes (fuel now : Nat) (tft tft2 : TFT) (a : Option PopupAction)
    (h : TFT.perform fuel tft now a = some tft2) :
    tft2.device.crashes_ = tft.device.crashes_ := by
  cases a with
  | none => simp only [TFT.perform] at h; cases h; rfl
  | some act =>
    cases act with
    | doRestartImpl => simp only [TFT.perform] at h; cases h; rfl
    | gotoScreen c =>
      simp only [TFT.perform, TFT.gotoScreen] at h
      rw [TFT.displayUpdate_crashes _ _ _ _ h, TFT.switchScreen_device]

/-- C5: a restart requested through `doRestart` shows a popup without touching the
watchdog or the crash records; when the popup times out or its OK button is touched,
the watchdog is disabled and control is at the boot vector, with the crash records as
they were. No display update and no touch of a popup changes the crash records. -/
theorem TFT.doRestart_keeps_crash_records (fuel now : Nat) (tft : TFT) (scr : Screen)
    (hscr : tft.current_screen_ = some scr) (hcls : scr.cls.isMainOrSetup = true) :
    (tft.doRestart now).device = tft.device ∧
    (∀ u : Nat, POPUP_TIMEOUT_MS < usub32 u (now % U32) →
      ∃ tft2, TFT.displayUpdate (fuel + 1) u (tft.doRestart now) = some tft2 ∧
        tft2.device = { wdt_enabled := false, at_boot_vector := true,
                        crashes_ := tft.device.crashes_ }) ∧
    (∀ (x y : Int) (time : Nat),
      POPUP_BTN_X - 20 ≤ x → x < POPUP_BTN_X + POPUP_BTN_W + 20 →
      POPUP_BTN_Y - 20 ≤ y → y < POPUP_BTN_Y + POPUP_BTN_H + 20 →
      ∃ tft2, TFT.touchScreenWithHeader fuel (tft.doRestart now) x y time time
          = some (tft2, true) ∧
        tft2.device = { wdt_enabled := false, at_boot_vector := true,
                        crashes_ := tft.device.crashes_ }) ∧
    (∀ (f u : Nat) (t t2 : TFT), TFT.displayUpdate f u t = some t2 →
      t2.device.crashes_ = t.device.crashes_) ∧
    (∀ (f u time : Nat) (x y : Int) (t t2 : TFT) (b : Bool),
      TFT.touchScreenWithHeader f t x y time u = some (t2, b) →
      t2.device.crashes_ = t.device.crashes_) := by
  have hdo : tft.doRestart now
      = { tft with current_screen_ := some (ScreenWithHeader.doRestart scr now) } := by
    simp only [TFT.doRestart, hscr]
  rw [hdo]
  refine ⟨rfl, ?_, ?_, fun f u t t2 h => TFT.displayUpdate_crashes f u t t2 h, ?_⟩
  · intro u hu
    have hto : ScreenWithHeader.popupTimedOut (ScreenWithHeader.doRestart scr now) u = true := by
      simpa [ScreenWithHeader.popupTimedOut, ScreenWithHeader.popupTimeout,
        ScreenWithHeader.doRestart, ScreenWithHeader.doPopupImpl] using hu
    have hc : (ScreenWithHeader.doRestart scr now).cls.isMainOrSetup = true := hcls
    simp only [TFT.displayUpdate, Screen.dispatchUpdate_mainOrSetup _ u _ hc]
    simp only [ScreenWithHeader.update, ScreenWithHeader.doRestart,
      ScreenWithHeader.doPopupImpl] at hto ⊢
    simp only [hto, if_true]
    exact ⟨_, rfl, rfl⟩
  · intro x y time hx1 hx2 hy1 hy2
    simp only [TFT.touchScreenWithHeader, ScreenWithHeader.touch, Screen.touch,
      ScreenWithHeader.doRestart, ScreenWithHeader.doPopupImpl, ge_iff_le, hx1, hx2, hy1, hy2,
      and_self, if_true, TFT.perform, Option.map_some']
    exact ⟨_, rfl, rfl⟩
  · intro f u time x y t t2 b h
    simp only [TFT.touchScreenWithHeader] at h
    split at h
    · cases h; rfl
    · rename_i scr2 hscr2
      simp only [Option.map_eq_some'] at h
      obtain ⟨t3, h3, h4⟩ := h
      cases h4
      have h5 := TFT.perform_crashes _ _ _ _ _ h3
      exact h5

/-- The conclusion on the network setup screen after its OK button requested the
restart at time 7000: the update at 17001 ms restarts the controller and the empty
crash buffer is still empty. -/
theorem TFT.doRestart_keeps_crash_records_witness :
    ∃ tft2, TFT.displayUpdate 1 17001 ((TFT.showing .ScreenSetupIPAddress 7000).doRestart 7000)
        = some tft2 ∧
      tft2.device = { wdt_enabled := false, at_boot_vector := true,
                      crashes_ := List.replicate MaxCrashReportCount default } := by
  have h := TFT.doRestart_keeps_crash_records 0 7000 (TFT.showing .ScreenSetupIPAddress 7000)
    (Screen.construct .ScreenSetupIPAddress 7000) rfl rfl
  exact h.2.1 17001 (by decide)

/-! ### Network setup screen -/

set_option maxRecDepth 100000 in
theorem IPAddressLiteral.shiftMask_contiguous :
    ∀ n < 33, ∀ col < 4, ∀ down clear : Bool,
      ((IPAddressLiteral.maskOfLength n).shiftedElement col down ≠ 255 → clear = true) →
      ((IPAddressLiteral.maskOfLength n).shiftMask col down clear).isContiguousMask = true := by
  decide

/-- Shifting right and setting bit 7 commutes with the truncation to a byte. -/
theorem shiftRight_or_128_mod (c : Nat) : ((c / 2) ||| 128) % 256 = ((c % 256) / 2) ||| 128 := by
  apply Nat.eq_of_testBit_eq
  intro i
  have h256 : (256 : Nat) = 2 ^ 8 := by norm_num
  have h128 : (128 : Nat) = 2 ^ 7 := by norm_num
  rw [h256, h128]
  simp only [Nat.testBit_mod_two_pow, Nat.testBit_or, ← Nat.testBit_succ, Nat.testBit_two_pow]
  by_cases h7 : i = 7
  · subst h7; simp
  · by_cases h8 : i < 7
    · have : i + 1 < 8 := by omega
      have : i < 8 := by omega
      simp [*]
    · have : ¬ i + 1 < 8 := by omega
      have : ¬ i < 8 := by omega
      have : ¬ 7 = i := by omega
      simp [*]

theorem or_128_ne_zero (a : Nat) : a ||| 128 ≠ 0 := by
  intro h
  have h7 := congrArg (fun x => x.testBit 7) h
  simp [Nat.testBit_or] at h7
  exact absurd h7.2 (by decide)

theorem IPAddressLiteral.get_set (m : IPAddressLiteral) (col v : Nat) :
    (m.set col v).get col = v % 256 := by
  unfold IPAddressLiteral.set IPAddressLiteral.get
  split <;> simp

theorem ScreenSetupIPAddress.newValue_down (s : ScreenSetupIPAddress) (delta : Int)
    (hrow : s.input_current_row_ = 2) (hd : delta < 0) :
    s.newValue delta = (2 * (s.cur_ % 256)) % 256 := by
  have h255 : (255 : Nat) = 2 ^ 8 - 1 := by norm_num
  simp only [ScreenSetupIPAddress.newValue, hrow, hd, if_true]
  rw [h255, Nat.and_pow_two_sub_one_eq_mod, Nat.shiftLeft_eq]
  omega

theorem ScreenSetupIPAddress.newValue_up (s : ScreenSetupIPAddress) (delta : Int)
    (hrow : s.input_current_row_ = 2) (hd : ¬ delta < 0) :
    s.newValue delta ≠ 0 ∧ s.newValue delta % 256 = ((s.cur_ % 256) / 2) ||| 128 := by
  simp only [ScreenSetupIPAddress.newValue, hrow, hd, if_true, if_false,
    Nat.shiftRight_eq_div_pow, pow_one]
  exact ⟨or_128_ne_zero _, shiftRight_or_128_mod _⟩

theorem ScreenSetupIPAddress.updateValue_editedMask (s : ScreenSetupIPAddress) (delta : Int)
    (hrow : s.input_current_row_ = 2) (hcol : s.input_current_col_ < 4) :
    (s.updateValue delta).editedMask = s.editedMask ∨
    ∃ clear : Bool,
      (s.editedMask.shiftedElement s.input_current_col_ (decide (delta < 0)) ≠ 255 →
        clear = true) ∧
      (s.updateValue delta).editedMask =
        s.editedMask.shiftMask s.input_current_col_ (decide (delta < 0)) clear := by
  by_cases hsame : s.newValue delta = s.cur_
  · left
    simp [ScreenSetupIPAddress.updateValue, hsame]
  · right
    refine ⟨decide (s.newValue delta ≠ 255), ?_, ?_⟩
    · intro h
      simp only [decide_eq_true_eq]
      intro h255
      apply h
      simp only [IPAddressLiteral.shiftedElement, ScreenSetupIPAddress.editedMask,
        IPAddressLiteral.get_set]
      by_cases hd : delta < 0
      · have := s.newValue_down delta hrow hd
        simp only [hd, decide_True, if_true]
        omega
      · have := (s.newValue_up delta hrow hd).2
        simp only [hd, decide_False]
        rw [← this, h255]; rfl
    · have hmod : s.editedMask.shiftedElement s.input_current_col_ (decide (delta < 0)) =
          s.newValue delta % 256 ∧ (s.newValue delta = 0 ↔ s.newValue delta % 256 = 0) := by
        simp only [IPAddressLiteral.shiftedElement, ScreenSetupIPAddress.editedMask,
          IPAddressLiteral.get_set]
        by_cases hd : delta < 0
        · have := s.newValue_down delta hrow hd
          simp only [hd, decide_True, if_true]
          omega
        · have := s.newValue_up delta hrow hd
          simp only [hd, decide_False]
          refine ⟨this.2.symm, ?_⟩
          constructor
          · intro h0; exact absurd h0 this.1
          · intro h0
            rw [this.2] at h0
            exact absurd h0 (or_128_ne_zero _)
      have hshift : s.editedMask.shiftMask s.input_current_col_ (decide (delta < 0))
          (decide (s.newValue delta ≠ 255)) =
          ((if decide (s.newValue delta ≠ 255) = true then
            (if s.newValue delta % 256 ≠ 0 then s.editedMask.fillLeft s.input_current_col_
              else s.editedMask).clearRight s.input_current_col_
            else (if s.newValue delta % 256 ≠ 0 then
              s.editedMask.fillLeft s.input_current_col_ else s.editedMask)).set
            s.input_current_col_ (s.newValue delta % 256)) := by
        rw [← hmod.1]
        rfl
      rw [hshift]
      have hz := hmod.2
      simp only [ScreenSetupIPAddress.updateValue, hrow, hsame, if_false, OfNat.ofNat_ne_zero]
      revert hz hsame
      generalize s.newValue delta = nv
      intro hsame hz
      obtain ⟨row, col, ip, gw, ⟨m0, m1, m2, m3⟩, mqtt, port, ntp, dns, mac, cur⟩ := s
      simp only at hrow hcol hsame
      subst hrow
      by_cases h0 : nv = 0
      · have h0m : nv % 256 = 0 := hz.1 h0
        by_cases h255 : nv = 255
        · omega
        · interval_cases col <;>
            simp [ScreenSetupIPAddress.editedMask, IPAddressLiteral.set, IPAddressLiteral.fillLeft,
              IPAddressLiteral.clearRight, h0, h255]
      · have h0m : ¬ nv % 256 = 0 := fun h => h0 (hz.2 h)
        by_cases h255 : nv = 255
        · interval_cases col <;>
            simp [ScreenSetupIPAddress.editedMask, IPAddressLiteral.set, IPAddressLiteral.fillLeft,
              IPAddressLiteral.clearRight, h0, h255]
        · interval_cases col <;>
            simp [ScreenSetupIPAddress.editedMask, IPAddressLiteral.set, IPAddressLiteral.fillLeft,
              IPAddressLiteral.clearRight, h0, h0m, h255]

theorem ScreenSetupIPAddress.updateValue_forces (s : ScreenSetupIPAddress) (delta : Int)
    (hrow : s.input_current_row_ = 2) (hcol : s.input_current_col_ < 4)
    (hchg : (s.updateValue delta).cur_ ≠ s.cur_) :
    (0 < delta → ∀ c < s.input_current_col_, (s.updateValue delta).mask_.get c = 255) ∧
    (delta < 0 → ∀ c, s.input_current_col_ < c → c < 4 →
      (s.updateValue delta).mask_.get c = 0) := by
  have hsame : s.newValue delta ≠ s.cur_ := by
    intro h
    apply hchg
    simp [ScreenSetupIPAddress.updateValue, h]
  have hnv : (0 < delta → s.newValue delta ≠ 0) ∧ (delta < 0 → s.newValue delta ≠ 255) := by
    constructor
    · intro hd
      exact (s.newValue_up delta hrow (by omega)).1
    · intro hd
      have := s.newValue_down delta hrow hd
      omega
  simp only [ScreenSetupIPAddress.updateValue, hrow, hsame, if_false, OfNat.ofNat_ne_zero]
  revert hnv
  generalize s.newValue delta = nv
  intro hnv
  constructor
  · intro hd c hc
    have h0 := hnv.1 hd
    by_cases h255 : nv = 255 <;>
    · interval_cases hcc : s.input_current_col_ <;> interval_cases c <;>
        simp [IPAddressLiteral.get, IPAddressLiteral.fillLeft, IPAddressLiteral.clearRight, h0, h255]
  · intro hd c hc hc4
    have h255 := hnv.2 hd
    by_cases h0 : nv = 0 <;>
    · interval_cases hcc : s.input_current_col_ <;> interval_cases c <;>
        simp [IPAddressLiteral.get, IPAddressLiteral.fillLeft, IPAddressLiteral.clearRight, h0, h255]

/-- C15: on the netmask row (row 2), in every column and for every `delta` (so for every
non-zero one), if the mask formed by `mask_` with `cur_` in the edited column is a run
of 1-bits followed by 0-bits, then so is the mask formed the same way after
`updateValue(delta)`; and whenever the value changes, a positive `delta` leaves every
element to the left at 255 and a negative one every element to the right at 0. -/
theorem ScreenSetupIPAddress.updateValue_keeps_contiguous_mask (s : ScreenSetupIPAddress) (delta : Int)
    (hrow : s.input_current_row_ = 2) (hcol : s.input_current_col_ < 4)
    (hmask : s.editedMask.isContiguousMask = true) :
    (s.updateValue delta).editedMask.isContiguousMask = true ∧
    ((s.updateValue delta).cur_ ≠ s.cur_ →
      (0 < delta → ∀ c < s.input_current_col_, (s.updateValue delta).mask_.get c = 255) ∧
      (delta < 0 → ∀ c, s.input_current_col_ < c → c < 4 →
        (s.updateValue delta).mask_.get c = 0)) := by
  refine ⟨?_, s.updateValue_forces delta hrow hcol⟩
  obtain ⟨n, hn, hn2⟩ : ∃ n, n < 33 ∧ s.editedMask = IPAddressLiteral.maskOfLength n := by
    simpa [IPAddressLiteral.isContiguousMask, List.any_eq_true] using hmask
  rcases s.updateValue_editedMask delta hrow hcol with h | ⟨clear, hc, h⟩
  · rw [h]; exact hmask
  · rw [h, hn2]
    exact IPAddressLiteral.shiftMask_contiguous n hn _ hcol _ _ (by rw [← hn2]; exact hc)

/-- The conclusion on the default netmask 255.255.255.0 with the third element entered:
down makes it 255.255.254.0, twice down 255.255.252.0, and up on the last element
255.255.255.128, each of them a contiguous mask. -/
theorem ScreenSetupIPAddress.updateValue_keeps_contiguous_mask_witness :
    (ScreenSetupIPAddress.defaults 2 2).editedMask = IPAddressLiteral.lit 255 255 255 0 ∧
    ((ScreenSetupIPAddress.defaults 2 2).updateValue (-1)).editedMask
      = IPAddressLiteral.lit 255 255 254 0 ∧
    (((ScreenSetupIPAddress.defaults 2 2).updateValue (-1)).updateValue (-10)).editedMask
      = IPAddressLiteral.lit 255 255 252 0 ∧
    ((ScreenSetupIPAddress.defaults 2 3).updateValue 1).editedMask
      = IPAddressLiteral.lit 255 255 255 128 ∧
    ((ScreenSetupIPAddress.defaults 2 2).updateValue (-1)).editedMask.isContiguousMask
      = true := by
  have h := ScreenSetupIPAddress.updateValue_keeps_contiguous_mask
    (ScreenSetupIPAddress.defaults 2 2) (-1) rfl (by decide) (by decide)
  exact ⟨by decide, by decide, by decide, by decide, h.1⟩

/-- C16: on every row other than the netmask row, `updateValue(delta)` is saturating
for every `delta` of the menu buttons (and every other 16-bit `delta` above -32768): an
address or MAC element `cur_ <= 255` becomes `max(0, min(255, cur_ + delta))`, the MQTT
port on row 5 becomes `max(0, min(65535, cur_ + delta))` for every 16-bit `cur_`. -/
theorem ScreenSetupIPAddress.updateValue_saturates (s : ScreenSetupIPAddress) (delta : Int)
    (hdelta : -32768 < delta ∧ delta < 32768)
    (hrow0 : s.input_current_row_ ≠ 0) (hrow2 : s.input_current_row_ ≠ 2)
    (hcur : s.cur_ ≤ if s.input_current_row_ = 5 then 65535 else 255) :
    ((s.updateValue delta).cur_ : Int) =
      max 0 (min (if s.input_current_row_ = 5 then 65535 else 255) ((s.cur_ : Int) + delta)) := by
  unfold ScreenSetupIPAddress.updateValue ScreenSetupIPAddress.newValue toUnsigned
  simp only [hrow0, hrow2, if_false, max_def, min_def]
  split_ifs at hcur ⊢ <;> (try dsimp only) <;> omega

/-- The conclusion on the default values: the last element 240 of the MQTT broker
address plus 16 is 255, the first element 192 minus 10 is 182, the MQTT port 1883 plus
16 is 1899, and a port of 65530 plus 10 is 65535. -/
theorem ScreenSetupIPAddress.updateValue_saturates_witness :
    ((-32768 < (16 : Int) ∧ (16 : Int) < 32768) ∧
      (ScreenSetupIPAddress.defaults 4 3).cur_ = 240) ∧
    ((ScreenSetupIPAddress.defaults 4 3).updateValue 16).cur_ = 255 ∧
    ((ScreenSetupIPAddress.defaults 4 0).updateValue (-10)).cur_ = 182 ∧
    ((ScreenSetupIPAddress.defaults 5 0).updateValue 16).cur_ = 1899 ∧
    ({ ScreenSetupIPAddress.defaults 5 0 with cur_ := 65530 }.updateValue 10).cur_ = 65535 ∧
    ({ ScreenSetupIPAddress.defaults 7 0 with cur_ := 5 }.updateValue (-16)).cur_ = 0 := by
  have h := ScreenSetupIPAddress.updateValue_saturates (ScreenSetupIPAddress.defaults 4 3) 16
    (by decide) (by decide) (by decide) (by decide)
  refine ⟨⟨by decide, by decide⟩, ?_, by decide, by decide, by decide, by decide⟩
  have h2 : (((ScreenSetupIPAddress.defaults 4 3).updateValue 16).cur_ : Int) = 255 := by
    rw [h]; decide
  exact_mod_cast h2

/-! ### Touch calibration -/

/-- Mapping from the range `0..w` onto itself with `map` returns the 16-bit argument. -/
theorem Arduino.map_identity (x w : Int) (hw : 0 < w ∧ w ≤ 32767)
    (hx : -32768 ≤ x ∧ x ≤ 32767) :
    Arduino.map x 0 (toUInt16 w) 0 w = some x := by
  have hwu : ((toUInt16 w : Nat) : Int) = w := by
    unfold toUInt16
    omega
  have hw1 : toLong (w - 0) = w := by
    unfold toLong
    omega
  have hx1 : toLong (x - 0) = x := by
    unfold toLong
    omega
  have hlo : -1073741824 ≤ x * w := by nlinarith [hw.1, hw.2, hx.1, hx.2]
  have hhi : x * w ≤ 1073741824 := by nlinarith [hw.1, hw.2, hx.1, hx.2]
  have hxw : toLong (x * w) = x * w := by
    unfold toLong
    omega
  have hdiv : Int.tdiv (x * w) w = x := Int.mul_tdiv_cancel x (by omega)
  have hx2 : toLong (x + 0) = x := by
    unfold toLong
    omega
  unfold Arduino.map
  rw [hwu, hw1, hx1, hxw, hdiv, hx2, if_neg (by omega)]

/-- C14: `TouchCalibration::reset(w, h)` with `w, h > 0` sets `left_ = 0`, `right_ = w`,
`top_ = 0`, `bottom_ = h`, `swap_xy_ = false` and `calibrated_ = false`, and with these
settings the position that `TFT::loopTouch` maps a raw point `(x, y)` to on a display of
width `w` and height `h` is `(x, y)` itself, for all 16-bit values. -/
theorem TouchCalibration.reset_is_identity (cal : TouchCalibration) (w h x y : Int)
    (hw : 0 < w ∧ w ≤ 32767) (hh : 0 < h ∧ h ≤ 32767)
    (hx : -32768 ≤ x ∧ x ≤ 32767) (hy : -32768 ≤ y ∧ y ≤ 32767) :
    ((cal.reset w h).left_ : Int) = 0 ∧ ((cal.reset w h).right_ : Int) = w ∧
    ((cal.reset w h).top_ : Int) = 0 ∧ ((cal.reset w h).bottom_ : Int) = h ∧
    (cal.reset w h).swap_xy_ = false ∧ (cal.reset w h).calibrated_ = false ∧
    Arduino.map x (cal.reset w h).left_ (cal.reset w h).right_ 0 w = some x ∧
    Arduino.map y (cal.reset w h).top_ (cal.reset w h).bottom_ 0 h = some y ∧
    TFT.touchPosition (cal.reset w h) w h x y = some (x, y) := by
  have hmx : Arduino.map x (cal.reset w h).left_ (cal.reset w h).right_ 0 w = some x :=
    Arduino.map_identity x w hw hx
  have hmy : Arduino.map y (cal.reset w h).top_ (cal.reset w h).bottom_ 0 h = some y :=
    Arduino.map_identity y h hh hy
  have hx16 : toInt16 x = x := by
    unfold toInt16
    omega
  have hy16 : toInt16 y = y := by
    unfold toInt16
    omega
  have hr : ((toUInt16 w : Nat) : Int) = w := by
    unfold toUInt16
    omega
  have hb : ((toUInt16 h : Nat) : Int) = h := by
    unfold toUInt16
    omega
  refine ⟨rfl, hr, rfl, hb, rfl, rfl, hmx, hmy, ?_⟩
  unfold TFT.touchPosition
  have hs : (cal.reset w h).swap_xy_ = false := rfl
  rw [hs]
  simp only [Bool.false_eq_true, if_false]
  rw [hmx, hmy, Option.some_bind, Option.some_bind, hx16, hy16]

/-- The conclusion for the display of 480 by 320 pixels and the raw point (1023, 517),
which lies outside the display, and what a calibration to the range 100..900 makes of
the raw point (500, 500). -/
theorem TouchCalibration.reset_is_identity_witness :
    ((0 : Int) < 480 ∧ (480 : Int) ≤ 32767) ∧
    TouchCalibration.reset ⟨100, 900, 100, 900, true, true⟩ 480 320
      = ⟨0, 480, 0, 320, false, false⟩ ∧
    TFT.touchPosition (TouchCalibration.reset ⟨100, 900, 100, 900, true, true⟩ 480 320)
      480 320 1023 517 = some (1023, 517) ∧
    TFT.touchPosition ⟨100, 900, 100, 900, false, true⟩ 480 320 500 500 = some (240, 160) := by
  have h := TouchCalibration.reset_is_identity ⟨100, 900, 100, 900, true, true⟩ 480 320
    1023 517 (by decide) (by decide) (by decide) (by decide)
  exact ⟨by decide, by decide, h.2.2.2.2.2.2.2.2, by decide⟩

/-! ### Screen saver -/

/-- The unsigned difference to a start time that is less than 2^32 back is the time
that passed. -/
theorem usub32_of_le (t B : Nat) (hB : B ≤ t) (ht : t - B < U32) :
    usub32 t (B % U32) = t - B := by
  simp only [usub32, U32] at *
  omega

theorem ScreenSaver.update_blank (scr : Screen) (B u : Nat)
    (hb : scr.millis_screen_blank_ = B % U32) (hB : B ≤ u) (hu : u - B < U32) :
    (ScreenSaver.update scr u).millis_screen_blank_ = (max B (u - SCREEN_OFF_MIN_TIME)) % U32 := by
  unfold ScreenSaver.update
  rw [hb, usub32_of_le u B hB hu]
  simp only [SCREEN_OFF_MIN_TIME, U32, usub32] at *
  split
  · simp only []
    rw [max_eq_right (by omega)]
    omega
  · rw [hb, max_eq_left (by omega)]

theorem ScreenSaver.inOrder_le (t : Nat) :
    ∀ (us : List Nat) (prev : Nat), ScreenSaver.inOrder prev us t = true → prev ≤ t := by
  intro us
  induction us with
  | nil =>
    intro prev ho
    simpa [ScreenSaver.inOrder] using ho
  | cons u us ih =>
    intro prev ho
    simp only [ScreenSaver.inOrder, Bool.and_eq_true, decide_eq_true_eq] at ho
    have := ih u ho.2
    omega

theorem ScreenSaver.closelySpaced_inOrder (t : Nat) :
    ∀ (us : List Nat) (prev : Nat), ScreenSaver.closelySpaced prev us t = true →
      ScreenSaver.inOrder prev us t = true := by
  intro us
  induction us with
  | nil =>
    intro prev hc
    simp only [ScreenSaver.closelySpaced, decide_eq_true_eq] at hc
    simp only [ScreenSaver.inOrder, decide_eq_true_eq]
    exact hc.1
  | cons u us ih =>
    intro prev hc
    simp only [ScreenSaver.closelySpaced, Bool.and_eq_true, decide_eq_true_eq] at hc
    simp only [ScreenSaver.inOrder, Bool.and_eq_true, decide_eq_true_eq]
    exact ⟨hc.1.1, ih u hc.2⟩

theorem ScreenSaver.updates_blank_early (b t : Nat) (ht : t - b < SCREEN_OFF_MIN_TIME) :
    ∀ (us : List Nat) (prev : Nat) (scr : Screen), scr.millis_screen_blank_ = b % U32 →
      b ≤ prev → ScreenSaver.inOrder prev us t = true →
      (ScreenSaver.updates scr us).millis_screen_blank_ = b % U32 := by
  intro us
  induction us with
  | nil =>
    intro prev scr hb hp ho
    exact hb
  | cons u us ih =>
    intro prev scr hb hp ho
    simp only [ScreenSaver.inOrder, Bool.and_eq_true, decide_eq_true_eq] at ho
    have hut := ScreenSaver.inOrder_le t us u ho.2
    have hu : (ScreenSaver.update scr u).millis_screen_blank_ = b % U32 := by
      rw [ScreenSaver.update_blank scr b u hb (by omega) (by simp only [SCREEN_OFF_MIN_TIME, U32] at *; omega)]
      rw [max_eq_left (by simp only [SCREEN_OFF_MIN_TIME] at *; omega)]
    exact ih u (ScreenSaver.update scr u) hu (by omega) ho.2

theorem ScreenSaver.updates_blank (b t : Nat) :
    ∀ (us : List Nat) (prev : Nat) (scr : Screen),
      scr.millis_screen_blank_ = (max b (prev - SCREEN_OFF_MIN_TIME)) % U32 →
      b ≤ prev → ScreenSaver.closelySpaced prev us t = true →
      ∃ last, b ≤ last ∧ last ≤ t ∧ t - last < U32 - SCREEN_OFF_MIN_TIME ∧
        (ScreenSaver.updates scr us).millis_screen_blank_
          = (max b (last - SCREEN_OFF_MIN_TIME)) % U32 := by
  intro us
  induction us with
  | nil =>
    intro prev scr hb hp hc
    simp only [ScreenSaver.closelySpaced, decide_eq_true_eq] at hc
    exact ⟨prev, hp, hc.1, hc.2, hb⟩
  | cons u us ih =>
    intro prev scr hb hp hc
    simp only [ScreenSaver.closelySpaced, Bool.and_eq_true, decide_eq_true_eq] at hc
    have hu : (ScreenSaver.update scr u).millis_screen_blank_
        = (max b (u - SCREEN_OFF_MIN_TIME)) % U32 := by
      rw [ScreenSaver.update_blank scr _ u hb
        (by simp only [SCREEN_OFF_MIN_TIME, U32] at *; omega)
        (by simp only [SCREEN_OFF_MIN_TIME, U32] at *; omega)]
      congr 1
      simp only [SCREEN_OFF_MIN_TIME] at *
      omega
    exact ih u (ScreenSaver.update scr u) hu (by omega) hc.2

/-- C12, as stated, fails: the display is blanked at time 0 and `ScreenSaver::update` runs
next at time `2^32 + 5`, where `millis()` reads 5; the touch at time `2^32 + 15`, which is
at least 2000 ms after blanking and 10 ms after that update, is consumed without waking
the display. -/
theorem ScreenSaver.touch_after_wrap_not_waking :
    (SCREEN_OFF_MIN_TIME ≤ (U32 + 15) - 0 ∧ U32 + 5 ≤ U32 + 15 ∧
      (U32 + 15) - (U32 + 5) < U32 - SCREEN_OFF_MIN_TIME) ∧
    (ScreenSaver.touch (ScreenSaver.updates (ScreenSaver.blankedAt 0) [U32 + 5])
      (U32 + 15)).2 = none := by
  decide

/-- C12, amended: for a screen saver blanked at time `b`, with `ScreenSaver::update` run at
the times `us` in order up to the touch at time `t`: if `t - b < SCREEN_OFF_MIN_TIME` the
touch does not wake the display; if `t - b >= SCREEN_OFF_MIN_TIME` it switches to the main
screen, however long the display has been blank, provided less than `2^32 - 2000` ms
pass from blanking to the first update, from each update to the next and from the last
update to the touch; and after each update at time `u`,
`(u - millis_screen_blank_) mod 2^32 <= SCREEN_OFF_MIN_TIME`. -/
theorem ScreenSaver.wakes_after_min_time (scr : Screen) (b t : Nat) (us : List Nat)
    (hb : scr.millis_screen_blank_ = b % U32) (hord : ScreenSaver.inOrder b us t = true) :
    (t - b < SCREEN_OFF_MIN_TIME → (ScreenSaver.touch (ScreenSaver.updates scr us) t).2 = none) ∧
    (SCREEN_OFF_MIN_TIME ≤ t - b → ScreenSaver.closelySpaced b us t = true →
      (ScreenSaver.touch (ScreenSaver.updates scr us) t).2 = some (.gotoScreen .ScreenMain)) ∧
    (∀ (scr1 : Screen) (u : Nat),
      usub32 u (ScreenSaver.update scr1 u).millis_screen_blank_ ≤ SCREEN_OFF_MIN_TIME) := by
  have hbt := ScreenSaver.inOrder_le t us b hord
  refine ⟨?_, ?_, ?_⟩
  · intro ht
    have h := ScreenSaver.updates_blank_early b t ht us b scr hb (le_refl b) hord
    simp only [ScreenSaver.touch, Screen.touch, h]
    rw [usub32_of_le t b hbt (by simp only [SCREEN_OFF_MIN_TIME, U32] at *; omega)]
    rw [if_neg (by omega)]
  · intro ht hc
    have hb2 : scr.millis_screen_blank_ = (max b (b - SCREEN_OFF_MIN_TIME)) % U32 := by
      rw [hb, max_eq_left (by omega)]
    obtain ⟨last, hl1, hl2, hl3, h⟩ := ScreenSaver.updates_blank b t us b scr hb2 (le_refl b) hc
    simp only [ScreenSaver.touch, Screen.touch, h]
    rw [usub32_of_le t _ (by simp only [SCREEN_OFF_MIN_TIME, U32] at *; omega)
      (by simp only [SCREEN_OFF_MIN_TIME, U32] at *; omega)]
    rw [if_pos (by simp only [SCREEN_OFF_MIN_TIME, U32] at *; omega)]
  · intro scr1 u
    unfold ScreenSaver.update
    split
    · simp only [usub32, U32, SCREEN_OFF_MIN_TIME] at *
      omega
    · omega

/-- The conclusion for a display blanked at time 0 and updated every `2^31` ms: the touch
at `3 * 2^31 + 1`, when it has been blank for more than `2^32` ms, switches to the main
screen; and for a display blanked 1000 ms before the counter wraps, the touch 1999 ms
after blanking does not wake it and the touch 2000 ms after blanking does. -/
theorem ScreenSaver.wakes_after_min_time_witness :
    (ScreenSaver.inOrder 0 [2147483648, 4294967296, 6442450944] 6442450945 = true ∧
      ScreenSaver.closelySpaced 0 [2147483648, 4294967296, 6442450944] 6442450945 = true ∧
      SCREEN_OFF_MIN_TIME ≤ 6442450945 - 0) ∧
    (ScreenSaver.touch (ScreenSaver.updates (ScreenSaver.blankedAt 0)
      [2147483648, 4294967296, 6442450944]) 6442450945).2 = some (.gotoScreen .ScreenMain) ∧
    (ScreenSaver.touch (ScreenSaver.updates (ScreenSaver.blankedAt 4294966296)
      [4294967000]) 4294968295).2 = none ∧
    (ScreenSaver.touch (ScreenSaver.updates (ScreenSaver.blankedAt 4294966296)
      [4294967000]) 4294968296).2 = some (.gotoScreen .ScreenMain) := by
  have h := ScreenSaver.wakes_after_min_time (ScreenSaver.blankedAt 0) 0 6442450945
    [2147483648, 4294967296, 6442450944] (by decide) (by decide)
  exact ⟨⟨by decide, by decide, by decide⟩, h.2.1 (by decide) (by decide), by decide,
    by decide⟩

/-! ### Popup timeout -/

set_option maxRecDepth 100000 in
/-- C11, as stated, fails: on a calibration screen constructed at time 0 the calibration
is completed at time 401100 and the popup without flags is shown; the update at time
401600, which runs 500 ms after the popup was shown, does not execute the popup action
but ends with `gotoScreen<ScreenSaver>`, and the screen saver replaces the screen with
its popup. -/
theorem ScreenCalibration.popup_closed_before_timeout :
    ScreenCalibration.finishedLate.popup_action_ = some (.gotoScreen .ScreenMain) ∧
    ScreenCalibration.finishedLate.popup_flags_ = none ∧
    ScreenCalibration.finishedLate.millis_popup_show_time_ = 401100 ∧
    usub32 401600 ScreenCalibration.finishedLate.millis_popup_show_time_ ≤ POPUP_TIMEOUT_MS ∧
    (ScreenCalibration.finishedLate.dispatchUpdate 401600 ScreenClass.ScreenCalibration.ID).2
      = some (.gotoScreen .ScreenSaver) ∧
    ∃ tft1, TFT.displayUpdate 2 401600
        { TFT.showing .ScreenCalibration 0 with
          current_screen_ := some ScreenCalibration.finishedLate } = some tft1 ∧
      tft1.current_screen_id_ = ScreenClass.ScreenSaver.ID ∧
      tft1.current_screen_ = some (ScreenSaver.blankedAt 401600) := by
  refine ⟨by decide, by decide, by decide, by decide, by decide, ?_⟩
  exact ⟨_, rfl, by decide, by decide⟩

/-- With a popup showing, the `update()` of a screen with header is
`ScreenWithHeader::update`. -/
theorem Screen.dispatchUpdate_popup (scr : Screen) (now id : Nat) (act : PopupAction)
    (hcls : scr.cls.isMainOrSetup = true ∨ scr.cls = .ScreenCalibration)
    (hpop : scr.popup_action_ = some act) :
    scr.dispatchUpdate now id = ScreenWithHeader.update scr now id := by
  rcases hcls with h | h
  · exact Screen.dispatchUpdate_mainOrSetup scr now id h
  · simp [Screen.dispatchUpdate, h, ScreenCalibration.update, hpop]

theorem Screen.dispatchUpdate_popup_timed_out (scr : Screen) (now id : Nat) (act : PopupAction)
    (hcls : scr.cls.isMainOrSetup = true ∨ scr.cls = .ScreenCalibration)
    (hpop : scr.popup_action_ = some act)
    (hu : ScreenWithHeader.popupTimeout scr < usub32 now scr.millis_popup_show_time_) :
    scr.dispatchUpdate now id = ({ scr with popup_action_ := none }, some act) := by
  rw [Screen.dispatchUpdate_popup scr now id act hcls hpop]
  simp [ScreenWithHeader.update, hpop, ScreenWithHeader.popupTimedOut, hu]

theorem Screen.dispatchUpdate_popup_pending (scr : Screen) (now id : Nat) (act : PopupAction)
    (hcls : scr.cls.isMainOrSetup = true ∨ scr.cls = .ScreenCalibration)
    (hpop : scr.popup_action_ = some act)
    (hu : usub32 now scr.millis_popup_show_time_ ≤ ScreenWithHeader.popupTimeout scr)
    (hin : usub32 now scr.last_input_time_ ≤ INTERVAL_TOUCH_TIMEOUT) :
    scr.dispatchUpdate now id = (scr, none) := by
  rw [Screen.dispatchUpdate_popup scr now id act hcls hpop]
  have h300 : usub32 now scr.last_input_time_ ≤ INTERVAL_DISPLAY_TIMEOUT :=
    Nat.le_trans hin (by decide)
  simp [ScreenWithHeader.update, hpop, ScreenWithHeader.popupTimedOut, Nat.not_lt.mpr hu,
    Screen.update, Screen.updateBranch, Nat.not_lt.mpr hin, Nat.not_lt.mpr h300]

theorem TFT.displayUpdates_popup_pending (fuel : Nat) (ts : List Nat) (tft : TFT) (scr : Screen)
    (act : PopupAction) (hscr : tft.current_screen_ = some scr)
    (hcls : scr.cls.isMainOrSetup = true ∨ scr.cls = .ScreenCalibration)
    (hpop : scr.popup_action_ = some act)
    (hts : ∀ t ∈ ts, usub32 t scr.millis_popup_show_time_ ≤ ScreenWithHeader.popupTimeout scr ∧
      usub32 t scr.last_input_time_ ≤ INTERVAL_TOUCH_TIMEOUT) :
    TFT.displayUpdates (fuel + 1) ts tft = some tft := by
  induction ts with
  | nil => rfl
  | cons u ts ih =>
    have h := hts u (by simp)
    have h1 : TFT.displayUpdate (fuel + 1) u tft = some tft := by
      simp only [TFT.displayUpdate, hscr,
        Screen.dispatchUpdate_popup_pending scr u _ act hcls hpop h.1 h.2]
      rw [TFT.set_current_screen_eq tft scr hscr]
    simp only [TFT.displayUpdates, h1, Option.some_bind]
    exact ih (fun v hv => hts v (by simp [hv]))

theorem TFT.displayUpdate_popup_timed_out (fuel now : Nat) (tft : TFT) (scr : Screen)
    (act : PopupAction) (hscr : tft.current_screen_ = some scr)
    (hcls : scr.cls.isMainOrSetup = true ∨ scr.cls = .ScreenCalibration)
    (hpop : scr.popup_action_ = some act)
    (hu : ScreenWithHeader.popupTimeout scr < usub32 now scr.millis_popup_show_time_) :
    TFT.displayUpdate (fuel + 1) now tft
      = TFT.perform fuel { tft with current_screen_ := some { scr with popup_action_ := none } }
          now (some act) := by
  simp only [TFT.displayUpdate, hscr,
    Screen.dispatchUpdate_popup_timed_out scr now _ act hcls hpop hu]
  cases act <;> rfl

/-- The first update of a screen that was just constructed and initialized ends
without a further action. -/
theorem TFT.displayUpdate_fresh (fuel now : Nat) (tft : TFT) (c : ScreenClass) :
    ∃ tft2, TFT.displayUpdate (fuel + 1) now
      { ({ tft with current_screen_ := some (Screen.construct c now) }.initScreen now) with
        current_screen_id_ := c.ID, touch_in_progress_ := false } = some tft2 := by
  have h0 : usub32 now (now % U32) = 0 := usub32_self_mod now
  cases c <;>
    simp [TFT.displayUpdate, TFT.initScreen, Screen.construct, Screen.dispatchUpdate,
      ScreenSaver.update, ScreenInit.update, ScreenCalibration.update, ScreenWithHeader.update,
      Screen.update, Screen.updateBranch, h0, INTERVAL_DISPLAY_TIMEOUT, INTERVAL_TOUCH_TIMEOUT,
      SCREEN_OFF_MIN_TIME]

theorem TFT.initScreen_header (tft : TFT) (scr : Screen) (now : Nat)
    (hscr : tft.current_screen_ = some scr)
    (hcls : scr.cls.isMainOrSetup = true ∨ scr.cls = .ScreenCalibration) :
    (tft.initScreen now).current_screen_ = some scr ∧
    (tft.initScreen now).current_screen_id_ = tft.current_screen_id_ := by
  rcases hcls with h | h
  · cases hc : scr.cls <;>
      simp [TFT.initScreen, hscr, hc, ScreenClass.isMainOrSetup] at h ⊢
  · simp [TFT.initScreen, hscr, h]

/-- The action that an `update()` or `touch()` of a screen with header ends with is
carried out within two nested display updates. -/
theorem TFT.perform_total (fuel now : Nat) (tft : TFT) (scr : Screen) (a : Option PopupAction)
    (hscr : tft.current_screen_ = some scr) (hid : tft.current_screen_id_ = scr.cls.ID)
    (hcls : scr.cls.isMainOrSetup = true ∨ scr.cls = .ScreenCalibration)
    (hpop : scr.popup_action_ = none) :
    ∃ tft2, TFT.perform (fuel + 2) tft now a = some tft2 := by
  rcases a with _ | ⟨c⟩ | _
  · exact ⟨_, rfl⟩
  · simp only [TFT.perform, TFT.gotoScreen, TFT.switchScreen]
    by_cases hc : tft.current_screen_id_ = c.ID
    · rw [if_pos hc]
      obtain ⟨hs1, hi1⟩ := TFT.initScreen_header tft scr now hscr hcls
      rcases hcls with hm | hcal
      · have hsv : (tft.initScreen now).current_screen_id_ ≠ ScreenClass.ScreenSaver.ID := by
          rw [hi1, hid]
          cases hcc : scr.cls <;> simp [hcc, ScreenClass.isMainOrSetup, ScreenClass.ID] at hm ⊢
        cases hup : scr.update now (tft.initScreen now).current_screen_id_ with
        | none => exact ⟨_, TFT.displayUpdate_idle (fuel + 1) now _ scr hs1 hm hpop hup⟩
        | some act =>
          have hact : act = .gotoScreen .ScreenSaver ∨
              (act = .gotoScreen .ScreenMain ∧
                (tft.initScreen now).current_screen_id_ ≠ ScreenClass.ScreenMain.ID) := by
            simp only [Screen.update] at hup
            split at hup
            · left; exact (Option.some.inj hup).symm
            · split at hup
              · right; exact ⟨(Option.some.inj hup).symm, by assumption⟩
              · exact absurd hup (by simp)
            · exact absurd hup (by simp)
          rcases hact with h | ⟨h, hne⟩
          · subst h
            exact ⟨_, TFT.displayUpdate_to_saver fuel now _ scr hs1 hm hpop hup hsv⟩
          · subst h
            exact ⟨_, TFT.displayUpdate_to_main fuel now _ scr hs1 hm hpop hup hne⟩
      · have h : TFT.displayUpdate (fuel + 2) now (tft.initScreen now)
            = some { tft.initScreen now with current_screen_ := some scr } := by
          simp only [TFT.displayUpdate, hs1, Screen.dispatchUpdate, hcal,
            ScreenCalibration.update, hpop, Option.isSome_none, Bool.false_eq_true, if_false]
        exact ⟨_, h⟩
    · rw [if_neg hc]
      exact TFT.displayUpdate_fresh (fuel + 1) now tft c
  · exact ⟨_, rfl⟩

/-- C11, amended: on a screen with a popup whose OK button is not touched, whose last
input is at most `INTERVAL_TOUCH_TIMEOUT` old at every update up to the limit: a popup
shown by `doPopupImpl` at time `now` has the show time `now` and the timeout
`POPUP_TIMEOUT_MS`, with flags set `POPUP_FLAG_TIMEOUT_MS`; a touch that does not hit
the OK button keeps the popup and the timeout and either leaves the show time alone or,
toggling a flag, sets it to the time of the touch; the updates `ts` at or before the
limit change nothing, and the first update `u` that runs more than the timeout after
the show time closes the popup and executes its action, which completes. -/
theorem ScreenWithHeader.popup_closes_at_timeout (fuel : Nat) (tft : TFT) (scr : Screen) (act : PopupAction)
    (ts : List Nat) (u : Nat)
    (hscr : tft.current_screen_ = some scr) (hid : tft.current_screen_id_ = scr.cls.ID)
    (hcls : scr.cls.isMainOrSetup = true ∨ scr.cls = .ScreenCalibration)
    (hpop : scr.popup_action_ = some act)
    (hts : ∀ t ∈ ts, usub32 t scr.millis_popup_show_time_ ≤ ScreenWithHeader.popupTimeout scr ∧
      usub32 t scr.last_input_time_ ≤ INTERVAL_TOUCH_TIMEOUT)
    (hu : ScreenWithHeader.popupTimeout scr < usub32 u scr.millis_popup_show_time_) :
    (∀ (s : Screen) (now : Nat) (a : PopupAction),
      (ScreenWithHeader.doPopupImpl s now a).popup_action_ = some a ∧
      (ScreenWithHeader.doPopupImpl s now a).millis_popup_show_time_ = now % U32 ∧
      ScreenWithHeader.popupTimeout (ScreenWithHeader.doPopupImpl s now a) = 10000 ∧
      ∀ f : PopupFlagsState,
        (ScreenWithHeader.setPopupFlags (ScreenWithHeader.doPopupImpl s now a)
          f).millis_popup_show_time_ = now % U32 ∧
        ScreenWithHeader.popupTimeout
          (ScreenWithHeader.setPopupFlags (ScreenWithHeader.doPopupImpl s now a) f) = 30000) ∧
    (∀ (x y : Int) (time : Nat), (ScreenWithHeader.touch scr x y time).2.2 = none →
      (ScreenWithHeader.touch scr x y time).1.popup_action_ = some act ∧
      (ScreenWithHeader.touch scr x y time).1.last_input_time_ = time ∧
      ScreenWithHeader.popupTimeout (ScreenWithHeader.touch scr x y time).1
        = ScreenWithHeader.popupTimeout scr ∧
      ((ScreenWithHeader.touch scr x y time).1.popup_flags_ = scr.popup_flags_ ∧
        (ScreenWithHeader.touch scr x y time).1.millis_popup_show_time_
          = scr.millis_popup_show_time_ ∨
       (ScreenWithHeader.touch scr x y time).1.millis_popup_show_time_ = time ∧
        ∃ (f : PopupFlagsState) (idx : Nat), scr.popup_flags_ = some f ∧
          (ScreenWithHeader.touch scr x y time).1.popup_flags_
            = some { f with flags_ := f.flags_ ^^^ (2 ^ idx % 256) })) ∧
    TFT.displayUpdates (fuel + 3) ts tft = some tft ∧
    scr.dispatchUpdate u tft.current_screen_id_ = ({ scr with popup_action_ := none }, some act) ∧
    ∃ tft2, TFT.displayUpdates (fuel + 3) (ts ++ [u]) tft = some tft2 ∧
      TFT.perform (fuel + 2)
        { tft with current_screen_ := some { scr with popup_action_ := none } } u (some act)
        = some tft2 := by
  have hidle := TFT.displayUpdates_popup_pending (fuel + 2) ts tft scr act hscr hcls hpop hts
  refine ⟨?_, ?_, hidle,
    Screen.dispatchUpdate_popup_timed_out scr u _ act hcls hpop hu, ?_⟩
  · intro s now a
    refine ⟨rfl, rfl, rfl, ?_⟩
    intro f
    exact ⟨rfl, rfl⟩
  · intro x y time hnone
    unfold ScreenWithHeader.touch at hnone ⊢
    simp only [Screen.touch, hpop] at hnone ⊢
    cases hf : scr.popup_flags_ with
    | none =>
      simp only [hf] at hnone ⊢
      split_ifs at hnone ⊢
      exact ⟨rfl, rfl, by simp [ScreenWithHeader.popupTimeout, hf], Or.inl ⟨rfl, rfl⟩⟩
    | some f =>
      simp only [hf] at hnone ⊢
      split_ifs at hnone ⊢
      all_goals (try dsimp only at hnone ⊢)
      all_goals first
        | (cases hnone; done)
        | exact ⟨rfl, rfl, by simp [ScreenWithHeader.popupTimeout, hf],
            Or.inr ⟨rfl, f, _, rfl, rfl⟩⟩
        | exact ⟨rfl, rfl, by simp [ScreenWithHeader.popupTimeout, hf], Or.inl ⟨rfl, rfl⟩⟩
  · obtain ⟨tft2, h2⟩ := TFT.perform_total fuel u
      { tft with current_screen_ := some { scr with popup_action_ := none } }
      { scr with popup_action_ := none } (some act) rfl hid hcls rfl
    refine ⟨tft2, ?_, h2⟩
    rw [TFT.displayUpdates_append, hidle]
    simp only [Option.some_bind, TFT.displayUpdates]
    rw [TFT.displayUpdate_popup_timed_out (fuel + 2) u tft scr act hscr hcls hpop hu, h2]
    rfl

/-- The conclusion on the fan setup screen with a popup shown at time 5000 by a touch at
that time, updated every second: nothing changes up to time 15000, and the update at
time 16000 closes the popup and shows the setup screen. -/
theorem ScreenWithHeader.popup_closes_at_timeout_witness :
    (∀ t ∈ TFT.everySecond 5000 10,
      usub32 t 5000 ≤ POPUP_TIMEOUT_MS ∧ usub32 t 5000 ≤ INTERVAL_TOUCH_TIMEOUT) ∧
    POPUP_TIMEOUT_MS < usub32 16000 5000 ∧
    TFT.displayUpdates 3 (TFT.everySecond 5000 10)
      (TFT.showingPopup .ScreenSetupFan 5000 .ScreenSetup)
      = some (TFT.showingPopup .ScreenSetupFan 5000 .ScreenSetup) ∧
    ∃ tft2, TFT.displayUpdates 3 (TFT.everySecond 5000 10 ++ [16000])
        (TFT.showingPopup .ScreenSetupFan 5000 .ScreenSetup) = some tft2 ∧
      tft2.current_screen_id_ = ScreenClass.ScreenSetup.ID ∧
      tft2.current_screen_ = some (Screen.construct .ScreenSetup 16000) := by
  have h := ScreenWithHeader.popup_closes_at_timeout 0
    (TFT.showingPopup .ScreenSetupFan 5000 .ScreenSetup)
    (ScreenWithHeader.doPopup (Screen.construct .ScreenSetupFan 5000) 5000 .ScreenSetup)
    (.gotoScreen .ScreenSetup) (TFT.everySecond 5000 10) 16000 rfl rfl (Or.inl rfl) rfl
    (by decide) (by decide)
  obtain ⟨tft2, h1, h2⟩ := h.2.2.2.2
  have h3 : TFT.perform 2
      { TFT.showingPopup .ScreenSetupFan 5000 .ScreenSetup with
        current_screen_ := some
          { ScreenWithHeader.doPopup (Screen.construct .ScreenSetupFan 5000) 5000 .ScreenSetup
            with popup_action_ := none } } 16000 (some (.gotoScreen .ScreenSetup))
      = some { TFT.showingPopup .ScreenSetupFan 5000 .ScreenSetup with
          current_screen_ := some (Screen.construct .ScreenSetup 16000)
          current_screen_id_ := ScreenClass.ScreenSetup.ID } := by
    decide
  have h4 := h2.symm.trans h3
  refine ⟨by decide, by decide, h.2.2.1, tft2, h1, ?_, ?_⟩
  · rw [Option.some.inj h4]
  · rw [Option.some.inj h4]

/-! ### Menu buttons -/

